import Mathlib

/-!
# LLGL: render-target attachment utilities and the OpenGL pipeline layout

A shallow embedding of

* `sources/Renderer/RenderTargetUtils.cpp`
* `sources/Renderer/OpenGL/RenderState/GLPipelineLayout.cpp`
* `sources/Platform/Android/AndroidCanvas.cpp` (`GetNativeHandle`)
* `sources/Renderer/DebugLayer/Shader/DbgShader.h` (declarations only; the bodies are
  modelled)

Unsigned 32-bit quantities (`std::uint32_t`, `GLuint`) are natural numbers; the
only places where a value is narrowed (`static_cast`) are modelled with an
explicit reduction modulo `2 ^ 32`.  Writes through pointers and array accesses
return `Option`, with `none` for a null dereference or an access out of bounds.  Declarations that live in headers outside
the translated sources (enumerations, flag constants, format predicates, the
capacity of the color-attachment array) are either parameters of the
definitions or small data types marked as modelled.
-/

set_option autoImplicit false

namespace LLGL

/-! ## Data model of `RenderTargetUtils.cpp` -/

/-- Modelled from the spec: the `Format` enumeration is declared in a public header.
Only the enumerators named by the sources are spelled out (`Undefined` and the four
depth / depth-stencil formats); every other format is `Other code`. -/
inductive Format where
  | Undefined
  | D16UNorm
  | D24UNormS8UInt
  | D32Float
  | D32FloatS8X24UInt
  | Other (code : Nat)
  deriving DecidableEq, Repr

/-- Modelled from the spec: a texture object, reduced to what the utilities read from it,
namely the hardware format reported by `GetFormat()`. -/
structure Texture where
  format : Format
  deriving DecidableEq, Repr

/-- The call `texture->GetFormat()`. -/
def Texture.GetFormat (texture : Texture) : Format :=
  texture.format

/-- Modelled from the spec: `AttachmentDescriptor`, an explicit format (or `Undefined`) and
an optional texture reference (`none` is the null pointer). -/
structure AttachmentDescriptor where
  format : Format
  texture : Option Texture
  deriving DecidableEq, Repr

/-- Modelled from the spec: `RenderTargetDescriptor`.  `MAX` is the value of the macro
`LLGL_MAX_NUM_COLOR_ATTACHMENTS`, the compile-time capacity of both attachment arrays. -/
structure RenderTargetDescriptor (MAX : Nat) where
  samples : Nat
  colorAttachments : Fin MAX → AttachmentDescriptor
  resolveAttachments : Fin MAX → AttachmentDescriptor
  depthStencilAttachment : AttachmentDescriptor

/-- Modelled from the spec: the four sample limits of `RenderingLimits` read by the clamp. -/
structure RenderingLimits where
  maxColorBufferSamples : Nat
  maxDepthBufferSamples : Nat
  maxStencilBufferSamples : Nat
  maxNoAttachmentSamples : Nat
  deriving DecidableEq, Repr

/-! ## Functions of `RenderTargetUtils.cpp` -/

/-- Source: `IsAttachmentEnabled`, lines 21-24. -/
def IsAttachmentEnabled (attachmentDesc : AttachmentDescriptor) : Bool :=
  attachmentDesc.texture.isSome || attachmentDesc.format != Format.Undefined

/-- Source: `GetAttachmentFormat`, lines 26-33. -/
def GetAttachmentFormat (attachmentDesc : AttachmentDescriptor) : Format :=
  if attachmentDesc.format != Format.Undefined then
    attachmentDesc.format
  else
    match attachmentDesc.texture with
    | some texture => texture.GetFormat
    | none => Format.Undefined

/-- The `while` loop of `NumActiveColorAttachments` (lines 78-79), entered with counter `n`:
`while (n < MAX && IsAttachmentEnabled(colorAttachments[n])) ++n;`.  The array is read
only after the bound check, as in the short-circuit conjunction. -/
def NumActiveColorAttachments.loop {MAX : Nat} (renderTargetDesc : RenderTargetDescriptor MAX)
    (n : Nat) : Nat :=
  if h : n < MAX then
    if IsAttachmentEnabled (renderTargetDesc.colorAttachments ⟨n, h⟩) then
      NumActiveColorAttachments.loop renderTargetDesc (n + 1)
    else
      n
  else
    n
termination_by MAX - n

/-- Source: `NumActiveColorAttachments`, lines 75-81. -/
def NumActiveColorAttachments {MAX : Nat} (renderTargetDesc : RenderTargetDescriptor MAX) : Nat :=
  NumActiveColorAttachments.loop renderTargetDesc 0

/-- Source: `HasAnyActiveAttachments`, lines 94-97. -/
def HasAnyActiveAttachments {MAX : Nat} (desc : RenderTargetDescriptor MAX) : Bool :=
  decide (NumActiveColorAttachments desc > 0) || IsAttachmentEnabled desc.depthStencilAttachment

/-- Source: `GetLimitedRenderTargetSamples`, lines 99-114.  `IsDepthFormat` and
`IsStencilFormat` are the format predicates of the public format header; `hMax` makes
the access `colorAttachments[0]` well defined. -/
def GetLimitedRenderTargetSamples {MAX : Nat} (IsDepthFormat IsStencilFormat : Format → Bool)
    (hMax : 0 < MAX) (limits : RenderingLimits) (desc : RenderTargetDescriptor MAX) : Nat :=
  if desc.samples > 0 then
    if HasAnyActiveAttachments desc then
      let depthStencilFormat := GetAttachmentFormat desc.depthStencilAttachment
      let maxColorBufferSamples :=
        if IsAttachmentEnabled (desc.colorAttachments ⟨0, hMax⟩) then limits.maxColorBufferSamples
        else desc.samples
      let maxDepthBufferSamples :=
        if IsDepthFormat depthStencilFormat then limits.maxDepthBufferSamples else desc.samples
      let maxStencilBufferSamples :=
        if IsStencilFormat depthStencilFormat then limits.maxStencilBufferSamples else desc.samples
      min (min (min desc.samples maxColorBufferSamples) maxDepthBufferSamples) maxStencilBufferSamples
    else
      min desc.samples limits.maxNoAttachmentSamples
  else
    0

/-- The limits that the clamp description calls relevant for a descriptor: the color limit
when color attachment 0 is enabled, the depth limit when the effective depth/stencil format
is a depth format, the stencil limit when it is a stencil format. -/
def relevantSampleLimits {MAX : Nat} (IsDepthFormat IsStencilFormat : Format → Bool)
    (hMax : 0 < MAX) (limits : RenderingLimits) (desc : RenderTargetDescriptor MAX) : List Nat :=
  (if IsAttachmentEnabled (desc.colorAttachments ⟨0, hMax⟩) then [limits.maxColorBufferSamples]
    else []) ++
  (if IsDepthFormat (GetAttachmentFormat desc.depthStencilAttachment) then
    [limits.maxDepthBufferSamples] else []) ++
  (if IsStencilFormat (GetAttachmentFormat desc.depthStencilAttachment) then
    [limits.maxStencilBufferSamples] else [])

/-! ## Format bits and resolve attachments (`RenderTargetUtils.cpp`) -/

/-- Modelled from the spec: an entry of the format-attribute table, reduced to the member
the utilities read, the total bit size of the format. -/
structure FormatAttributes where
  bitSize : Nat
  deriving DecidableEq, Repr

/-- The `int` objects an output pointer can point to, by address. -/
abbrev IntMemory := Nat → Int

/-- The conversion `static_cast<int>` of a `std::uint32_t`: the 32-bit two-complement
reading of the value. -/
def toInt32 (x : Nat) : Int :=
  if x % 2 ^ 32 < 2 ^ 31 then ((x % 2 ^ 32 : Nat) : Int) else ((x % 2 ^ 32 : Nat) : Int) - 2 ^ 32

/-- The assignment `*p = v` through an `int*`; `none` is the null pointer, and writing
through it is a fault (`none` as the result). -/
def writeInt (p : Option Nat) (v : Int) (mem : IntMemory) : Option IntMemory :=
  match p with
  | none => none
  | some a => some (fun b => if b = a then v else mem b)

/-- Source: `SetFormatBits`, lines 35-49: three guarded writes, in this order. -/
def SetFormatBits (inColorBits inDepthBits inStencilBits : Nat)
    (outColorBits outDepthBits outStencilBits : Option Nat) (mem : IntMemory) :
    Option IntMemory := do
  let mem ← if outColorBits != none then writeInt outColorBits (toInt32 inColorBits) mem
    else some mem
  let mem ← if outDepthBits != none then writeInt outDepthBits (toInt32 inDepthBits) mem
    else some mem
  if outStencilBits != none then writeInt outStencilBits (toInt32 inStencilBits) mem
  else some mem

/-- Source: `GetFormatBits`, lines 51-73.  `GetFormatAttribs` is the format-attribute table
of the public format header; the result is the returned `std::uint32_t` together with the
memory after the writes, or `none` on a fault. -/
def GetFormatBits (GetFormatAttribs : Format → FormatAttributes) (format : Format)
    (outColorBits outDepthBits outStencilBits : Option Nat) (mem : IntMemory) :
    Option (Nat × IntMemory) := do
  let attribs := GetFormatAttribs format
  let mem ←
    match format with
    | Format.D16UNorm =>
      SetFormatBits 0 16 0 outColorBits outDepthBits outStencilBits mem
    | Format.D24UNormS8UInt =>
      SetFormatBits 0 24 8 outColorBits outDepthBits outStencilBits mem
    | Format.D32Float =>
      SetFormatBits 0 32 0 outColorBits outDepthBits outStencilBits mem
    | Format.D32FloatS8X24UInt =>
      SetFormatBits 0 32 8 outColorBits outDepthBits outStencilBits mem
    | _ =>
      SetFormatBits (attribs.bitSize % 2 ^ 32) 0 0 outColorBits outDepthBits outStencilBits mem
  some (attribs.bitSize % 2 ^ 32, mem)

/-- The three bit counts `GetFormatBits` passes to `SetFormatBits` for a format, read off
the `switch`: (color, depth, stencil). -/
def formatBitSplit (GetFormatAttribs : Format → FormatAttributes) (format : Format) :
    Nat × Nat × Nat :=
  match format with
  | Format.D16UNorm => (0, 16, 0)
  | Format.D24UNormS8UInt => (0, 24, 8)
  | Format.D32Float => (0, 32, 0)
  | Format.D32FloatS8X24UInt => (0, 32, 8)
  | _ => ((GetFormatAttribs format).bitSize % 2 ^ 32, 0, 0)

/-- The `for` loop of `NumActiveResolveAttachments` (lines 86-90), entered with index `i`
and counter `n`. -/
def NumActiveResolveAttachments.loop {MAX : Nat} (renderTargetDesc : RenderTargetDescriptor MAX)
    (i n : Nat) : Nat :=
  if h : i < MAX then
    if IsAttachmentEnabled (renderTargetDesc.colorAttachments ⟨i, h⟩) then
      NumActiveResolveAttachments.loop renderTargetDesc (i + 1)
        (if (renderTargetDesc.resolveAttachments ⟨i, h⟩).texture != none then n + 1 else n)
    else
      n
  else
    n
termination_by MAX - i

/-- Source: `NumActiveResolveAttachments`, lines 83-92. -/
def NumActiveResolveAttachments {MAX : Nat} (renderTargetDesc : RenderTargetDescriptor MAX) :
    Nat :=
  NumActiveResolveAttachments.loop renderTargetDesc 0 0

/-- Whether resolve slot `i` carries a texture (false outside the array). -/
def hasResolveTexture {MAX : Nat} (renderTargetDesc : RenderTargetDescriptor MAX) (i : Nat) :
    Bool :=
  if h : i < MAX then (renderTargetDesc.resolveAttachments ⟨i, h⟩).texture.isSome else false

/-! ## Data model of `GLPipelineLayout.cpp` -/

/-- Modelled from the spec: the `ResourceType` enumeration of binding descriptors. -/
inductive ResourceType where
  | Undefined
  | Buffer
  | Texture
  | Sampler
  deriving DecidableEq, Repr

/-- Modelled from the spec: the values of the three `BindFlags` enumerators the resolver
tests.  They are bit masks of the `long` field `bindFlags`; a mask is kept as the natural
number with the same bits. -/
structure BindFlagsValues where
  ConstantBuffer : Nat
  Sampled : Nat
  Storage : Nat
  deriving DecidableEq, Repr

/-- Modelled from the spec: the back-end binding categories (`GLResourceType`). -/
inductive GLResourceType where
  | GLResourceType_Invalid
  | GLResourceType_UBO
  | GLResourceType_SSBO
  | GLResourceType_Texture
  | GLResourceType_Image
  | GLResourceType_Sampler
  | GLResourceType_GL2XSampler
  deriving DecidableEq, Repr

export GLResourceType (GLResourceType_Invalid GLResourceType_UBO GLResourceType_SSBO
  GLResourceType_Texture GLResourceType_Image GLResourceType_Sampler GLResourceType_GL2XSampler)

/-- What the translation unit takes from its environment: whether it is compiled with
`LLGL_GL_ENABLE_OPENGL2X` defined, and the answer of the capability query
`HasNativeSamplers()`. -/
structure GLEnvironment where
  LLGL_GL_ENABLE_OPENGL2X : Bool
  HasNativeSamplers : Bool
  deriving DecidableEq, Repr

/-- Modelled from the spec: `BindingDescriptor`.  `bindFlags` and `stageFlags` are the bit
patterns of the `long` fields. -/
structure BindingDescriptor where
  name : String
  type : ResourceType
  bindFlags : Nat
  stageFlags : Nat
  slot : Nat
  deriving DecidableEq, Repr

/-- Modelled from the spec: a sampler state description; its content is never inspected by
the pipeline layout, so it is an uninterpreted code. -/
structure SamplerDescriptor where
  state : Nat
  deriving DecidableEq, Repr

/-- Modelled from the spec: `StaticSamplerDescriptor`. -/
structure StaticSamplerDescriptor where
  name : String
  stageFlags : Nat
  slot : Nat
  sampler : SamplerDescriptor
  deriving DecidableEq, Repr

/-- Modelled from the spec: a uniform declaration. -/
structure UniformDescriptor where
  name : String
  type : Nat
  arraySize : Nat
  deriving DecidableEq, Repr

/-- Modelled from the spec: `PipelineLayoutDescriptor`. -/
structure PipelineLayoutDescriptor where
  heapBindings : List BindingDescriptor
  bindings : List BindingDescriptor
  staticSamplers : List StaticSamplerDescriptor
  uniforms : List UniformDescriptor
  deriving DecidableEq, Repr

/-- Modelled from the spec: `GLPipelineResourceBinding`, a resolved category and a slot. -/
structure GLPipelineResourceBinding where
  type : GLResourceType
  slot : Nat
  deriving DecidableEq, Repr

/-- Modelled from the spec: a native sampler object: the ID the driver assigned to it when
it was created (member `id_`, as in `GLVertexArrayObject`), and its state, absent until
`SetDesc`.  Two objects with the same state are different objects with their own IDs. -/
structure GLSampler where
  id_ : Nat
  desc : Option SamplerDescriptor
  deriving DecidableEq, Repr

/-- Modelled from the spec: a legacy (GL 2.x) emulated sampler: the address of the object,
which is its identity, and its state, absent until `SetDesc`. -/
structure GL2XSampler where
  address : Nat
  desc : Option SamplerDescriptor
  deriving DecidableEq, Repr

/-- Modelled from the spec: where new sampler objects get their identity.  `glGenSamplers k`
is the ID the driver returns for a native sampler created when the layout under construction
owns `k` native samplers already, `newGL2XSampler k` the address of an emulated sampler
allocated when it owns `k` emulated samplers already. -/
structure SamplerSource where
  glGenSamplers : Nat → Nat
  newGL2XSampler : Nat → Nat

/-- The data members of `GLPipelineLayout`. -/
structure GLPipelineLayout where
  heapBindings_ : List BindingDescriptor
  uniforms_ : List UniformDescriptor
  hasNamedBindings_ : Bool
  bindings_ : List GLPipelineResourceBinding
  resourceNames_ : List String
  staticSamplerSlots_ : List Nat
  staticSamplers_ : List GLSampler
  staticSamplersGL2X_ : List GL2XSampler
  deriving DecidableEq, Repr

/-! ## Functions of `GLPipelineLayout.cpp` -/

/-- A conversion to `GLuint` or `std::uint32_t`: reduction modulo `2 ^ 32`. -/
def toUInt32 (x : Nat) : Nat :=
  x % 2 ^ 32

/-- Source: `HasAnyNamedEntries`, lines 20-29; `name` reads the member `entry.name`. -/
def HasAnyNamedEntries {α : Type} (name : α → String) : List α → Bool
  | [] => false
  | entry :: rest =>
    if !(name entry).isEmpty then true else HasAnyNamedEntries name rest

/-- Source: `HasAnyNamedResourceBindings`, lines 32-40. -/
def HasAnyNamedResourceBindings (desc : PipelineLayoutDescriptor) : Bool :=
  HasAnyNamedEntries BindingDescriptor.name desc.heapBindings ||
  HasAnyNamedEntries BindingDescriptor.name desc.bindings ||
  HasAnyNamedEntries StaticSamplerDescriptor.name desc.staticSamplers

/-- Source: `ToGLResourceType`, lines 100-129.  A `break` leaves the `switch` and reaches
the final `return GLResourceType_Invalid`. -/
def ToGLResourceType (BindFlags : BindFlagsValues) (env : GLEnvironment)
    (desc : BindingDescriptor) : GLResourceType :=
  match desc.type with
  | ResourceType.Buffer =>
    if desc.bindFlags &&& BindFlags.ConstantBuffer != 0 then
      GLResourceType_UBO
    else if desc.bindFlags &&& (BindFlags.Sampled ||| BindFlags.Storage) != 0 then
      GLResourceType_SSBO
    else
      GLResourceType_Invalid
  | ResourceType.Texture =>
    if desc.bindFlags &&& BindFlags.Sampled != 0 then
      GLResourceType_Texture
    else if desc.bindFlags &&& BindFlags.Storage != 0 then
      GLResourceType_Image
    else
      GLResourceType_Invalid
  | ResourceType.Sampler =>
    if env.LLGL_GL_ENABLE_OPENGL2X && !env.HasNativeSamplers then
      GLResourceType_GL2XSampler
    else
      GLResourceType_Sampler
  | _ => GLResourceType_Invalid

/-- `MakeUnique<GLSampler>()`; `id` is the ID the driver generates for the new object. -/
def GLSampler.make (id : Nat) : GLSampler :=
  { id_ := id, desc := none }

/-- `GLSampler::GetID`: the ID of the hardware sampler object. -/
def GLSampler.GetID (sampler : GLSampler) : Nat :=
  sampler.id_

/-- `GLSampler::SetDesc`. -/
def GLSampler.SetDesc (sampler : GLSampler) (desc : SamplerDescriptor) : GLSampler :=
  { sampler with desc := some desc }

/-- `MakeUnique<GL2XSampler>()`; `address` is where the new object is allocated. -/
def GL2XSampler.make (address : Nat) : GL2XSampler :=
  { address := address, desc := none }

/-- `GL2XSampler::SetDesc`. -/
def GL2XSampler.SetDesc (sampler : GL2XSampler) (desc : SamplerDescriptor) : GL2XSampler :=
  { sampler with desc := some desc }

namespace GLPipelineLayout

/-- Source: `BuildDynamicResourceBindings`, lines 131-139: one `push_back` to `bindings_`
and one to `resourceNames_` per descriptor, in iteration order. -/
def BuildDynamicResourceBindings (BindFlags : BindFlagsValues) (env : GLEnvironment)
    (self : GLPipelineLayout) (bindings : List BindingDescriptor) : GLPipelineLayout :=
  bindings.foldl
    (fun self desc =>
      { self with
        bindings_ := self.bindings_ ++
          [{ type := ToGLResourceType BindFlags env desc, slot := toUInt32 desc.slot }]
        resourceNames_ := self.resourceNames_ ++ [desc.name] })
    self

/-- Source: `BuildStaticSamplers`, lines 141-172: the GL 2.x branch exists only when
`LLGL_GL_ENABLE_OPENGL2X` is defined and is taken when native samplers are missing.  Every
iteration creates a new sampler object, with the identity `source` gives it. -/
def BuildStaticSamplers (source : SamplerSource) (env : GLEnvironment) (self : GLPipelineLayout)
    (staticSamplers : List StaticSamplerDescriptor) : GLPipelineLayout :=
  if env.LLGL_GL_ENABLE_OPENGL2X && !env.HasNativeSamplers then
    staticSamplers.foldl
      (fun self desc =>
        let sampler :=
          (GL2XSampler.make (source.newGL2XSampler self.staticSamplersGL2X_.length)).SetDesc
            desc.sampler
        { self with
          staticSamplersGL2X_ := self.staticSamplersGL2X_ ++ [sampler]
          staticSamplerSlots_ := self.staticSamplerSlots_ ++ [toUInt32 desc.slot]
          resourceNames_ := self.resourceNames_ ++ [desc.name] })
      self
  else
    staticSamplers.foldl
      (fun self desc =>
        let sampler :=
          (GLSampler.make (source.glGenSamplers self.staticSamplers_.length)).SetDesc desc.sampler
        { self with
          staticSamplers_ := self.staticSamplers_ ++ [sampler]
          staticSamplerSlots_ := self.staticSamplerSlots_ ++ [toUInt32 desc.slot]
          resourceNames_ := self.resourceNames_ ++ [desc.name] })
      self

/-- Source: the constructor `GLPipelineLayout::GLPipelineLayout`, lines 42-50: member
initialisers, then the two build steps (`reserve` does not change any content). -/
def ctor (BindFlags : BindFlagsValues) (env : GLEnvironment) (source : SamplerSource)
    (desc : PipelineLayoutDescriptor) : GLPipelineLayout :=
  let self : GLPipelineLayout :=
    { heapBindings_ := desc.heapBindings
      uniforms_ := desc.uniforms
      hasNamedBindings_ := HasAnyNamedResourceBindings desc
      bindings_ := []
      resourceNames_ := []
      staticSamplerSlots_ := []
      staticSamplers_ := []
      staticSamplersGL2X_ := [] }
  let self := BuildDynamicResourceBindings BindFlags env self desc.bindings
  BuildStaticSamplers source env self desc.staticSamplers

/-- Source: `GetNumHeapBindings`, lines 52-55. -/
def GetNumHeapBindings (self : GLPipelineLayout) : Nat :=
  toUInt32 self.heapBindings_.length

/-- Source: `GetNumBindings`, lines 57-60. -/
def GetNumBindings (self : GLPipelineLayout) : Nat :=
  toUInt32 self.bindings_.length

/-- Source: `GetNumStaticSamplers`, lines 62-69. -/
def GetNumStaticSamplers (env : GLEnvironment) (self : GLPipelineLayout) : Nat :=
  if env.LLGL_GL_ENABLE_OPENGL2X then
    toUInt32 (max self.staticSamplers_.length self.staticSamplersGL2X_.length)
  else
    toUInt32 self.staticSamplers_.length

/-- Source: `GetNumUniforms`, lines 71-74. -/
def GetNumUniforms (self : GLPipelineLayout) : Nat :=
  toUInt32 self.uniforms_.length

end GLPipelineLayout

/-! ## Binding the static samplers (`GLPipelineLayout.cpp`) -/

/-- Modelled from the spec: the two sampler bind operations of the state manager, as the
record of one call: the slot, and the native sampler ID or the emulated sampler object. -/
inductive GLBindCall where
  | BindSampler (slot : Nat) (sampler : Nat)
  | BindGL2XSampler (slot : Nat) (sampler : GL2XSampler)
  deriving DecidableEq, Repr

/-- Modelled from the spec: the state manager, reduced to the sequence of sampler bind
calls it has received. -/
structure GLStateManager where
  calls : List GLBindCall
  deriving DecidableEq, Repr

/-- The call `stateMngr.BindSampler(slot, sampler)`. -/
def GLStateManager.BindSampler (stateMngr : GLStateManager) (slot sampler : Nat) :
    GLStateManager :=
  { calls := stateMngr.calls ++ [GLBindCall.BindSampler slot sampler] }

/-- The call `stateMngr.BindGL2XSampler(slot, sampler)`. -/
def GLStateManager.BindGL2XSampler (stateMngr : GLStateManager) (slot : Nat)
    (sampler : GL2XSampler) : GLStateManager :=
  { calls := stateMngr.calls ++ [GLBindCall.BindGL2XSampler slot sampler] }

/-- The loop `for_range(i, n) body`, entered with index `i`; `none` is a fault in a body. -/
def forRange.loop {σ : Type} (n : Nat) (body : Nat → σ → Option σ) (i : Nat) (s : σ) :
    Option σ :=
  if i < n then
    match body i s with
    | some s2 => forRange.loop n body (i + 1) s2
    | none => none
  else
    some s
termination_by n - i

/-- The loop `for_range(i, n) body`. -/
def forRange {σ : Type} (n : Nat) (body : Nat → σ → Option σ) (s : σ) : Option σ :=
  forRange.loop n body 0 s

namespace GLPipelineLayout

/-- Source: `BindStaticSamplers`, lines 76-93.  An array access `v[i]` outside the bounds of
`v` is a fault (`none`).  `env` is the environment at the time of the call: the function
asks `HasNativeSamplers()` again, it does not read a choice stored in the layout. -/
def BindStaticSamplers (env : GLEnvironment) (self : GLPipelineLayout)
    (stateMngr : GLStateManager) : Option GLStateManager :=
  if !self.staticSamplerSlots_.isEmpty then
    if env.LLGL_GL_ENABLE_OPENGL2X && !env.HasNativeSamplers then
      forRange self.staticSamplerSlots_.length
        (fun i stateMngr => do
          let slot ← self.staticSamplerSlots_[i]?
          let sampler ← self.staticSamplersGL2X_[i]?
          some (stateMngr.BindGL2XSampler slot sampler))
        stateMngr
    else
      forRange self.staticSamplerSlots_.length
        (fun i stateMngr => do
          let slot ← self.staticSamplerSlots_[i]?
          let sampler ← self.staticSamplers_[i]?
          some (stateMngr.BindSampler slot sampler.GetID))
        stateMngr
  else
    some stateMngr

end GLPipelineLayout

/-! ## `AndroidCanvas.cpp` -/

/-- Modelled from the spec: the native-handle structure of the platform, with its `window`
member (a pointer, kept as an address). -/
structure NativeHandle where
  window : Nat
  deriving DecidableEq, Repr

/-- The data member of `AndroidCanvas` that `GetNativeHandle` reads. -/
structure AndroidCanvas where
  window_ : Nat
  deriving DecidableEq, Repr

/-- Source: `AndroidCanvas::GetNativeHandle`, lines 89-98.  `sizeofNativeHandle` is
`sizeof(NativeHandle)`; `nativeHandle` is the buffer behind the pointer (`none` for the null
pointer).  The result is the returned flag and the buffer afterwards; `none` would be the
fault of writing through a null pointer. -/
def AndroidCanvas.GetNativeHandle (sizeofNativeHandle : Nat) (self : AndroidCanvas)
    (nativeHandle : Option NativeHandle) (nativeHandleSize : Nat) :
    Option (Bool × Option NativeHandle) :=
  if nativeHandle != none && nativeHandleSize == sizeofNativeHandle then
    match nativeHandle with
    | some handle => some (true, some { handle with window := self.window_ })
    | none => none
  else
    some (false, nativeHandle)

/-! ## `DbgShader.h` -/

/-- Modelled from the spec: the reflection of a shader, reduced to the identifiers of its
inputs, in declaration order. -/
structure ShaderReflection where
  inputs : List String
  deriving DecidableEq, Repr

/-- Modelled from the spec: the members of `DbgShader`: the wrapped instance (represented by
the reflection it reports, `none` when it reports none), the label and the two cached
names. -/
structure DbgShader where
  instanceReflection : Option ShaderReflection
  label : String
  vertexID_ : String
  instanceID_ : String
  deriving DecidableEq, Repr

/-- Modelled from the spec: the accepted spellings of the per-vertex index. -/
def isVertexIDSemantic (name : String) : Bool :=
  name == "SV_VertexID" || name == "gl_VertexID" || name == "gl_VertexIndex"

/-- Modelled from the spec: the accepted spellings of the per-instance index. -/
def isInstanceIDSemantic (name : String) : Bool :=
  name == "SV_InstanceID" || name == "gl_InstanceID" || name == "gl_InstanceIndex"

namespace DbgShader

/-- Modelled from the spec: one step of the reflection scan of `QueryInstanceAndVertexIDs`
(declared in `DbgShader.h`, its body is not part of the sources): a recognised spelling is
cached unless a name is cached already. -/
def scanInput (self : DbgShader) (name : String) : DbgShader :=
  let self :=
    if self.vertexID_.isEmpty && isVertexIDSemantic name then { self with vertexID_ := name }
    else self
  if self.instanceID_.isEmpty && isInstanceIDSemantic name then { self with instanceID_ := name }
  else self

/-- Modelled from the spec: `DbgShader::QueryInstanceAndVertexIDs`: reflect the wrapped
instance and scan the inputs in order. -/
def QueryInstanceAndVertexIDs (self : DbgShader) : DbgShader :=
  match self.instanceReflection with
  | some reflection => reflection.inputs.foldl scanInput self
  | none => self

/-- Modelled from the spec: the constructor of `DbgShader`: empty label and caches, then
the query of the two names. -/
def ctor (instanceReflection : Option ShaderReflection) : DbgShader :=
  QueryInstanceAndVertexIDs
    { instanceReflection := instanceReflection, label := "", vertexID_ := "",
      instanceID_ := "" }

/-- Modelled from the spec: `DbgShader::GetVertexID`: the cached name, null when there is
none. -/
def GetVertexID (self : DbgShader) : Option String :=
  if self.vertexID_.isEmpty then none else some self.vertexID_

/-- Modelled from the spec: `DbgShader::GetInstanceID`: the cached name, null when there is
none. -/
def GetInstanceID (self : DbgShader) : Option String :=
  if self.instanceID_.isEmpty then none else some self.instanceID_

end DbgShader

/-! ## Sample inputs -/

/-- A disabled attachment: no texture, undefined format. -/
def disabledAttachment : AttachmentDescriptor :=
  { format := Format.Undefined, texture := none }

/-- An enabled color attachment given by an explicit color format. -/
def colorAttachment : AttachmentDescriptor :=
  { format := Format.Other 0, texture := none }

/-- The depth predicate as the four depth formats of the sources suggest. -/
def sampleIsDepthFormat (format : Format) : Bool :=
  match format with
  | Format.D16UNorm | Format.D24UNormS8UInt | Format.D32Float | Format.D32FloatS8X24UInt => true
  | _ => false

/-- The stencil predicate: the two combined depth-stencil formats. -/
def sampleIsStencilFormat (format : Format) : Bool :=
  match format with
  | Format.D24UNormS8UInt | Format.D32FloatS8X24UInt => true
  | _ => false

/-- Eight color slots, enabled at indices 0, 1 and 3 only; no depth/stencil attachment. -/
def gapDesc : RenderTargetDescriptor 8 :=
  { samples := 8
    colorAttachments := fun i =>
      if i.val = 0 ∨ i.val = 1 ∨ i.val = 3 then colorAttachment else disabledAttachment
    resolveAttachments := fun _ => disabledAttachment
    depthStencilAttachment := disabledAttachment }

/-- Eight color slots, only slot 0 enabled, no depth/stencil attachment, 8 samples. -/
def colorOnlyDesc : RenderTargetDescriptor 8 :=
  { samples := 8
    colorAttachments := fun i => if i.val = 0 then colorAttachment else disabledAttachment
    resolveAttachments := fun _ => disabledAttachment
    depthStencilAttachment := disabledAttachment }

/-- Eight color slots, none enabled, no depth/stencil attachment, 8 samples requested. -/
def emptyDesc : RenderTargetDescriptor 8 :=
  { samples := 8
    colorAttachments := fun _ => disabledAttachment
    resolveAttachments := fun _ => disabledAttachment
    depthStencilAttachment := disabledAttachment }

/-- No multisampling requested (0 samples); color slot 0 and a combined depth-stencil
attachment are enabled. -/
def zeroSamplesDesc : RenderTargetDescriptor 8 :=
  { samples := 0
    colorAttachments := fun i => if i.val = 0 then colorAttachment else disabledAttachment
    resolveAttachments := fun _ => disabledAttachment
    depthStencilAttachment := { format := Format.D24UNormS8UInt, texture := none } }

/-- Limits 4 / 8 / 8 / 16 for color / depth / stencil / no attachment. -/
def sampleLimits : RenderingLimits :=
  { maxColorBufferSamples := 4
    maxDepthBufferSamples := 8
    maxStencilBufferSamples := 8
    maxNoAttachmentSamples := 16 }

/-- The flag values of the public header: `ConstantBuffer = 1 << 2`, `Sampled = 1 << 5`,
`Storage = 1 << 6`. -/
def sampleBindFlags : BindFlagsValues :=
  { ConstantBuffer := 4, Sampled := 32, Storage := 64 }

/-- A build with the GL 2.x path compiled in, on a context without native samplers. -/
def legacyEnv : GLEnvironment :=
  { LLGL_GL_ENABLE_OPENGL2X := true, HasNativeSamplers := false }

/-- A build without the GL 2.x path, on a context that reports no native samplers. -/
def coreOnlyEnv : GLEnvironment :=
  { LLGL_GL_ENABLE_OPENGL2X := false, HasNativeSamplers := false }

/-- A buffer binding with all of `ConstantBuffer`, `Sampled` and `Storage` set. -/
def bufferAllFlagsDesc : BindingDescriptor :=
  { name := "Scene", type := ResourceType.Buffer, bindFlags := 4 ||| 32 ||| 64,
    stageFlags := 1, slot := 0 }

/-- A texture binding with both `Sampled` and `Storage` set. -/
def textureBothFlagsDesc : BindingDescriptor :=
  { name := "", type := ResourceType.Texture, bindFlags := 32 ||| 64, stageFlags := 1,
    slot := 1 }

/-- A sampler binding. -/
def samplerDesc : BindingDescriptor :=
  { name := "", type := ResourceType.Sampler, bindFlags := 0, stageFlags := 1, slot := 2 }

/-- A binding whose kind is `Undefined`: it resolves to the invalid category. -/
def undefinedDesc : BindingDescriptor :=
  { name := "", type := ResourceType.Undefined, bindFlags := 4, stageFlags := 1, slot := 5 }

/-- A layout descriptor with three dynamic bindings (the second one unresolvable), one
unnamed static sampler and one named uniform; no heap bindings. -/
def sampleLayoutDesc : PipelineLayoutDescriptor :=
  { heapBindings := []
    bindings := [bufferAllFlagsDesc, undefinedDesc, samplerDesc]
    staticSamplers := [{ name := "", stageFlags := 1, slot := 3, sampler := { state := 0 } }]
    uniforms := [{ name := "tint", type := 0, arraySize := 0 }] }

/-- A format-attribute table: 16, 32, 32 and 64 bits for the four depth formats, 0 for
`Undefined`, 32 for every other format. -/
def sampleGetFormatAttribs (format : Format) : FormatAttributes :=
  match format with
  | Format.Undefined => { bitSize := 0 }
  | Format.D16UNorm => { bitSize := 16 }
  | Format.D24UNormS8UInt => { bitSize := 32 }
  | Format.D32Float => { bitSize := 32 }
  | Format.D32FloatS8X24UInt => { bitSize := 64 }
  | Format.Other _ => { bitSize := 32 }

/-- A memory in which every `int` holds `-1`. -/
def sampleMemory : IntMemory :=
  fun _ => -1

/-- A resolve target given by a texture. -/
def textureAttachment : AttachmentDescriptor :=
  { format := Format.Undefined, texture := some { format := Format.Other 0 } }

/-- Color slots 0, 1 and 3 enabled (slot 2 disabled); resolve slot 0 has a texture, resolve
slot 1 only a format, resolve slot 3 a texture again. -/
def resolveDesc : RenderTargetDescriptor 8 :=
  { samples := 4
    colorAttachments := fun i =>
      if i.val = 0 ∨ i.val = 1 ∨ i.val = 3 then colorAttachment else disabledAttachment
    resolveAttachments := fun i =>
      if i.val = 0 ∨ i.val = 3 then textureAttachment
      else if i.val = 1 then colorAttachment else disabledAttachment
    depthStencilAttachment := disabledAttachment }

/-- Color slot 0 disabled, color slots 1 and 3 enabled, no depth/stencil attachment. -/
def lateOnlyDesc : RenderTargetDescriptor 8 :=
  { samples := 8
    colorAttachments := fun i =>
      if i.val = 1 ∨ i.val = 3 then colorAttachment else disabledAttachment
    resolveAttachments := fun _ => disabledAttachment
    depthStencilAttachment := disabledAttachment }

/-- A canvas whose window lives at address 4096. -/
def sampleCanvas : AndroidCanvas :=
  { window_ := 4096 }

/-- A native-handle buffer that holds a stale window address. -/
def staleHandle : NativeHandle :=
  { window := 7 }

/-- A driver that hands out the sampler IDs 1, 2, 3, ... and an allocator that places the
emulated samplers at the addresses 4096, 4160, 4224, ... -/
def sampleSource : SamplerSource :=
  { glGenSamplers := fun k => k + 1, newGL2XSampler := fun k => 4096 + 64 * k }

/-- A layout descriptor with two static samplers of the same sampler state, at slots 3
and 1. -/
def twoSamplersDesc : PipelineLayoutDescriptor :=
  { heapBindings := []
    bindings := [samplerDesc]
    staticSamplers :=
      [{ name := "linear", stageFlags := 1, slot := 3, sampler := { state := 10 } },
       { name := "", stageFlags := 1, slot := 1, sampler := { state := 10 } }]
    uniforms := [] }

/-- A vertex shader reflection that uses the per-vertex index and no per-instance index. -/
def vertexOnlyReflection : ShaderReflection :=
  { inputs := ["position", "gl_VertexID", "color"] }

/-- A reflection without any of the special identifiers. -/
def plainReflection : ShaderReflection :=
  { inputs := ["position", "normal"] }

/-! ## Theorems: active color attachments -/

theorem NumActiveColorAttachments.loop_step {MAX : Nat} (d : RenderTargetDescriptor MAX)
    (n : Nat) (h : n < MAX) (he : IsAttachmentEnabled (d.colorAttachments ⟨n, h⟩) = true) :
    NumActiveColorAttachments.loop d n = NumActiveColorAttachments.loop d (n + 1) := by
  rw [NumActiveColorAttachments.loop]
  simp [h, he]

theorem NumActiveColorAttachments.loop_stop {MAX : Nat} (d : RenderTargetDescriptor MAX)
    (n : Nat) (h : n < MAX) (he : IsAttachmentEnabled (d.colorAttachments ⟨n, h⟩) = false) :
    NumActiveColorAttachments.loop d n = n := by
  rw [NumActiveColorAttachments.loop]
  simp [h, he]

theorem NumActiveColorAttachments.loop_full {MAX : Nat} (d : RenderTargetDescriptor MAX)
    (n : Nat) (h : ¬ n < MAX) :
    NumActiveColorAttachments.loop d n = n := by
  rw [NumActiveColorAttachments.loop]
  simp [h]

/-- Invariant of the counting loop: entered at `n ≤ MAX`, it returns some `r` with
`n ≤ r ≤ MAX`, all slots in `[n, r)` enabled, and `r = MAX` or slot `r` disabled. -/
theorem NumActiveColorAttachments.loop_spec {MAX : Nat} (d : RenderTargetDescriptor MAX) :
    ∀ (k n : Nat), MAX - n = k → n ≤ MAX →
      n ≤ NumActiveColorAttachments.loop d n ∧
      NumActiveColorAttachments.loop d n ≤ MAX ∧
      (∀ i : Fin MAX, n ≤ i.val → i.val < NumActiveColorAttachments.loop d n →
        IsAttachmentEnabled (d.colorAttachments i) = true) ∧
      (NumActiveColorAttachments.loop d n = MAX ∨
        ∃ i : Fin MAX, i.val = NumActiveColorAttachments.loop d n ∧
          IsAttachmentEnabled (d.colorAttachments i) = false) := by
  intro k
  induction k with
  | zero =>
    intro n hk hn
    have hge : ¬ n < MAX := by omega
    rw [NumActiveColorAttachments.loop_full d n hge]
    refine ⟨le_refl n, hn, ?_, Or.inl (by omega)⟩
    intro i h1 h2
    omega
  | succ k ih =>
    intro n hk hn
    have hlt : n < MAX := by omega
    cases he : IsAttachmentEnabled (d.colorAttachments ⟨n, hlt⟩) with
    | false =>
      rw [NumActiveColorAttachments.loop_stop d n hlt he]
      refine ⟨le_refl n, hn, ?_, Or.inr ⟨⟨n, hlt⟩, rfl, he⟩⟩
      intro i h1 h2
      omega
    | true =>
      rw [NumActiveColorAttachments.loop_step d n hlt he]
      obtain ⟨h1, h2, h3, h4⟩ := ih (n + 1) (by omega) (by omega)
      refine ⟨by omega, h2, ?_, h4⟩
      intro i hi1 hi2
      by_cases hin : i.val = n
      · have hi : i = ⟨n, hlt⟩ := Fin.ext hin
        rw [hi]
        exact he
      · exact h3 i (by omega) hi2

/-- The count is bounded by the capacity of the array. -/
theorem NumActiveColorAttachments_le {MAX : Nat} (d : RenderTargetDescriptor MAX) :
    NumActiveColorAttachments d ≤ MAX :=
  (NumActiveColorAttachments.loop_spec d (MAX - 0) 0 rfl (Nat.zero_le MAX)).2.1

/-- Every slot below the count is enabled. -/
theorem NumActiveColorAttachments_enabled {MAX : Nat} (d : RenderTargetDescriptor MAX)
    (i : Fin MAX) (hi : i.val < NumActiveColorAttachments d) :
    IsAttachmentEnabled (d.colorAttachments i) = true :=
  (NumActiveColorAttachments.loop_spec d (MAX - 0) 0 rfl (Nat.zero_le MAX)).2.2.1 i
    (Nat.zero_le _) hi

/-- The count is the capacity, or the slot at the count is disabled. -/
theorem NumActiveColorAttachments_stop {MAX : Nat} (d : RenderTargetDescriptor MAX) :
    NumActiveColorAttachments d = MAX ∨
      ∃ i : Fin MAX, i.val = NumActiveColorAttachments d ∧
        IsAttachmentEnabled (d.colorAttachments i) = false :=
  (NumActiveColorAttachments.loop_spec d (MAX - 0) 0 rfl (Nat.zero_le MAX)).2.2.2

/-- A disabled slot bounds the count from above. -/
theorem NumActiveColorAttachments_le_disabled {MAX : Nat} (d : RenderTargetDescriptor MAX)
    (j : Fin MAX) (hj : IsAttachmentEnabled (d.colorAttachments j) = false) :
    NumActiveColorAttachments d ≤ j.val := by
  by_contra hlt
  have := NumActiveColorAttachments_enabled d j (by omega)
  rw [hj] at this
  exact Bool.noConfusion this

/-- The count is determined by the first disabled slot. -/
theorem NumActiveColorAttachments_eq_first_disabled {MAX : Nat} (d : RenderTargetDescriptor MAX)
    (k : Fin MAX)
    (hpre : ∀ i : Fin MAX, i.val < k.val → IsAttachmentEnabled (d.colorAttachments i) = true)
    (hk : IsAttachmentEnabled (d.colorAttachments k) = false) :
    NumActiveColorAttachments d = k.val := by
  have hle := NumActiveColorAttachments_le_disabled d k hk
  rcases NumActiveColorAttachments_stop d with hfull | ⟨i, hi, hdis⟩
  · have := k.isLt
    omega
  · by_contra hne
    have hlt : i.val < k.val := by omega
    have := hpre i hlt
    rw [hdis] at this
    exact Bool.noConfusion this

/-- With a non-empty array, the count is positive exactly when slot 0 is enabled. -/
theorem NumActiveColorAttachments_pos_iff {MAX : Nat} (hMax : 0 < MAX)
    (d : RenderTargetDescriptor MAX) :
    0 < NumActiveColorAttachments d ↔
      IsAttachmentEnabled (d.colorAttachments ⟨0, hMax⟩) = true := by
  constructor
  · intro h
    exact NumActiveColorAttachments_enabled d ⟨0, hMax⟩ h
  · intro h
    by_contra hn
    rcases NumActiveColorAttachments_stop d with hfull | ⟨i, hi, hdis⟩
    · omega
    · have hval : i.val = 0 := by omega
      have hi0 : i = ⟨0, hMax⟩ := Fin.ext hval
      rw [hi0, h] at hdis
      exact Bool.noConfusion hdis

/-- `HasAnyActiveAttachments` in terms of slot 0 and the depth/stencil attachment. -/
theorem HasAnyActiveAttachments_eq {MAX : Nat} (hMax : 0 < MAX) (d : RenderTargetDescriptor MAX) :
    HasAnyActiveAttachments d =
      (IsAttachmentEnabled (d.colorAttachments ⟨0, hMax⟩) ||
        IsAttachmentEnabled d.depthStencilAttachment) := by
  unfold HasAnyActiveAttachments
  congr 1
  have h := NumActiveColorAttachments_pos_iff hMax d
  cases he : IsAttachmentEnabled (d.colorAttachments ⟨0, hMax⟩) with
  | false =>
    rw [he] at h
    simp only [decide_eq_false_iff_not]
    intro hpos
    exact Bool.noConfusion (h.mp hpos)
  | true =>
    rw [he] at h
    simp only [decide_eq_true_eq]
    exact h.mpr rfl

/-- C1. `NumActiveColorAttachments` returns the length of the longest prefix of enabled
color attachments: it is at most the capacity, every slot below it is enabled, it equals
the capacity or the slot at it is disabled, and no slot at or after a disabled slot is
counted; with slots 0, 1 and 3 enabled and slot 2 disabled the count is 2. -/
theorem NumActiveColorAttachments_longest_enabled_prefix :
    (∀ (MAX : Nat) (d : RenderTargetDescriptor MAX),
      NumActiveColorAttachments d ≤ MAX ∧
      (∀ i : Fin MAX, i.val < NumActiveColorAttachments d →
        IsAttachmentEnabled (d.colorAttachments i) = true) ∧
      (NumActiveColorAttachments d = MAX ∨
        ∃ i : Fin MAX, i.val = NumActiveColorAttachments d ∧
          IsAttachmentEnabled (d.colorAttachments i) = false) ∧
      (∀ j : Fin MAX, IsAttachmentEnabled (d.colorAttachments j) = false →
        NumActiveColorAttachments d ≤ j.val)) ∧
    IsAttachmentEnabled (gapDesc.colorAttachments 3) = true ∧
    NumActiveColorAttachments gapDesc = 2 := by
  refine ⟨fun MAX d => ⟨NumActiveColorAttachments_le d, NumActiveColorAttachments_enabled d,
    NumActiveColorAttachments_stop d, NumActiveColorAttachments_le_disabled d⟩, by decide, ?_⟩
  exact NumActiveColorAttachments_eq_first_disabled gapDesc 2 (by decide) (by decide)

/-! ## Theorems: multisample clamp -/

/-- C2. With a positive request and at least one active attachment, the clamp returns the
minimum of the requested sample count and the relevant limits only: the color limit iff
color attachment 0 is enabled, the depth limit iff the effective depth/stencil format is a
depth format, the stencil limit iff it is a stencil format. -/
theorem GetLimitedRenderTargetSamples_min_of_relevant_limits
    (IsDepthFormat IsStencilFormat : Format → Bool) {MAX : Nat} (hMax : 0 < MAX)
    (limits : RenderingLimits) (desc : RenderTargetDescriptor MAX)
    (hs : desc.samples > 0) (ha : HasAnyActiveAttachments desc = true) :
    GetLimitedRenderTargetSamples IsDepthFormat IsStencilFormat hMax limits desc =
      List.foldl min desc.samples
        (relevantSampleLimits IsDepthFormat IsStencilFormat hMax limits desc) ∧
    GetLimitedRenderTargetSamples IsDepthFormat IsStencilFormat hMax limits desc ≤ desc.samples ∧
    (∀ l ∈ relevantSampleLimits IsDepthFormat IsStencilFormat hMax limits desc,
      GetLimitedRenderTargetSamples IsDepthFormat IsStencilFormat hMax limits desc ≤ l) ∧
    (GetLimitedRenderTargetSamples IsDepthFormat IsStencilFormat hMax limits desc = desc.samples ∨
      GetLimitedRenderTargetSamples IsDepthFormat IsStencilFormat hMax limits desc ∈
        relevantSampleLimits IsDepthFormat IsStencilFormat hMax limits desc) := by
  unfold GetLimitedRenderTargetSamples relevantSampleLimits
  simp only [hs, ha, if_true]
  cases IsAttachmentEnabled (desc.colorAttachments ⟨0, hMax⟩) <;>
    cases IsDepthFormat (GetAttachmentFormat desc.depthStencilAttachment) <;>
    cases IsStencilFormat (GetAttachmentFormat desc.depthStencilAttachment) <;>
    simp <;> omega

/-- The request of 8 samples with a color limit of 4 and only a color attachment gives 4. -/
theorem GetLimitedRenderTargetSamples_min_of_relevant_limits_witness :
    (colorOnlyDesc.samples > 0 ∧ HasAnyActiveAttachments colorOnlyDesc = true) ∧
    GetLimitedRenderTargetSamples sampleIsDepthFormat sampleIsStencilFormat (by decide)
      sampleLimits colorOnlyDesc = 4 := by
  have hs : colorOnlyDesc.samples > 0 := by decide
  have ha : HasAnyActiveAttachments colorOnlyDesc = true := by
    rw [HasAnyActiveAttachments_eq (by decide)]
    decide
  refine ⟨⟨hs, ha⟩, ?_⟩
  rw [(GetLimitedRenderTargetSamples_min_of_relevant_limits sampleIsDepthFormat
    sampleIsStencilFormat (by decide) sampleLimits colorOnlyDesc hs ha).1]
  decide

/-- C3. With a positive request, color attachment 0 disabled and the depth/stencil
attachment disabled, the clamp returns `min samples maxNoAttachmentSamples`; the format
predicates and the color, depth and stencil limits have no influence on the result. -/
theorem GetLimitedRenderTargetSamples_no_attachment
    (IsDepthFormat IsStencilFormat : Format → Bool) {MAX : Nat} (hMax : 0 < MAX)
    (limits : RenderingLimits) (desc : RenderTargetDescriptor MAX)
    (hs : desc.samples > 0)
    (hc : IsAttachmentEnabled (desc.colorAttachments ⟨0, hMax⟩) = false)
    (hd : IsAttachmentEnabled desc.depthStencilAttachment = false) :
    HasAnyActiveAttachments desc = false ∧
    GetLimitedRenderTargetSamples IsDepthFormat IsStencilFormat hMax limits desc =
      min desc.samples limits.maxNoAttachmentSamples ∧
    (∀ (IsDepthFormat2 IsStencilFormat2 : Format → Bool) (limits2 : RenderingLimits),
      limits2.maxNoAttachmentSamples = limits.maxNoAttachmentSamples →
      GetLimitedRenderTargetSamples IsDepthFormat2 IsStencilFormat2 hMax limits2 desc =
        GetLimitedRenderTargetSamples IsDepthFormat IsStencilFormat hMax limits desc) := by
  have ha : HasAnyActiveAttachments desc = false := by
    rw [HasAnyActiveAttachments_eq hMax, hc, hd]
    rfl
  refine ⟨ha, ?_, ?_⟩
  · unfold GetLimitedRenderTargetSamples
    simp [hs, ha]
  · intro IsDepthFormat2 IsStencilFormat2 limits2 hEq
    unfold GetLimitedRenderTargetSamples
    simp [hs, ha, hEq]

/-- The request of 8 samples without any attachment and a no-attachment limit of 16
gives 8. -/
theorem GetLimitedRenderTargetSamples_no_attachment_witness :
    (emptyDesc.samples > 0 ∧
      IsAttachmentEnabled (emptyDesc.colorAttachments ⟨0, by decide⟩) = false ∧
      IsAttachmentEnabled emptyDesc.depthStencilAttachment = false) ∧
    GetLimitedRenderTargetSamples sampleIsDepthFormat sampleIsStencilFormat (by decide)
      sampleLimits emptyDesc = 8 := by
  refine ⟨⟨by decide, by decide, by decide⟩, ?_⟩
  rw [(GetLimitedRenderTargetSamples_no_attachment sampleIsDepthFormat sampleIsStencilFormat
    (by decide) sampleLimits emptyDesc (by decide) (by decide) (by decide)).2.1]
  decide

/-- C4. A requested sample count of 0 is clamped to 0, whatever the limits, the format
predicates and the attachments are. -/
theorem GetLimitedRenderTargetSamples_zero_samples
    (IsDepthFormat IsStencilFormat : Format → Bool) {MAX : Nat} (hMax : 0 < MAX)
    (limits : RenderingLimits) (desc : RenderTargetDescriptor MAX)
    (hs : desc.samples = 0) :
    GetLimitedRenderTargetSamples IsDepthFormat IsStencilFormat hMax limits desc = 0 := by
  unfold GetLimitedRenderTargetSamples
  simp [hs]

/-- The clamp of a request of 0 samples with active color and depth-stencil attachments. -/
theorem GetLimitedRenderTargetSamples_zero_samples_witness :
    zeroSamplesDesc.samples = 0 ∧
    IsAttachmentEnabled (zeroSamplesDesc.colorAttachments 0) = true ∧
    IsAttachmentEnabled zeroSamplesDesc.depthStencilAttachment = true ∧
    GetLimitedRenderTargetSamples sampleIsDepthFormat sampleIsStencilFormat (by decide)
      sampleLimits zeroSamplesDesc = 0 :=
  ⟨by decide, by decide, by decide,
    GetLimitedRenderTargetSamples_zero_samples sampleIsDepthFormat sampleIsStencilFormat
      (by decide) sampleLimits zeroSamplesDesc (by decide)⟩

/-! ## Theorems: binding resolution -/

/-- A bitwise disjunction vanishes exactly when both operands vanish. -/
theorem lor_eq_zero_iff (a b : Nat) : a ||| b = 0 ↔ a = 0 ∧ b = 0 := by
  constructor
  · intro h
    have key : ∀ i, a.testBit i = false ∧ b.testBit i = false := by
      intro i
      have hi := congrArg (fun x => x.testBit i) h
      simpa [Nat.testBit_or] using hi
    constructor
    · apply Nat.eq_of_testBit_eq
      intro i
      simp [(key i).1]
    · apply Nat.eq_of_testBit_eq
      intro i
      simp [(key i).2]
  · rintro ⟨rfl, rfl⟩
    simp

/-- Testing a mask that is the union of two masks is testing either of them. -/
theorem and_lor_ne_zero_iff (b s t : Nat) :
    b &&& (s ||| t) ≠ 0 ↔ b &&& s ≠ 0 ∨ b &&& t ≠ 0 := by
  rw [Nat.and_or_distrib_left, Ne, lor_eq_zero_iff]
  tauto

/-- C5. A buffer binding resolves to the uniform-block category whenever the
`ConstantBuffer` flag is set, whatever the other flags are; without `ConstantBuffer` and
with `Sampled` or `Storage` set it resolves to the storage-block category. -/
theorem ToGLResourceType_buffer (BindFlags : BindFlagsValues) (env : GLEnvironment)
    (desc : BindingDescriptor) (hb : desc.type = ResourceType.Buffer) :
    (desc.bindFlags &&& BindFlags.ConstantBuffer ≠ 0 →
      ToGLResourceType BindFlags env desc = GLResourceType_UBO) ∧
    (desc.bindFlags &&& BindFlags.ConstantBuffer = 0 →
      (desc.bindFlags &&& BindFlags.Sampled ≠ 0 ∨ desc.bindFlags &&& BindFlags.Storage ≠ 0) →
      ToGLResourceType BindFlags env desc = GLResourceType_SSBO) := by
  unfold ToGLResourceType
  rw [hb]
  constructor
  · intro hc
    simp [hc]
  · intro hc hs
    have hs2 := (and_lor_ne_zero_iff desc.bindFlags BindFlags.Sampled BindFlags.Storage).mpr hs
    simp [hc, hs2]

/-- A buffer with `ConstantBuffer`, `Sampled` and `Storage` all set is a uniform block. -/
theorem ToGLResourceType_buffer_witness :
    bufferAllFlagsDesc.type = ResourceType.Buffer ∧
    bufferAllFlagsDesc.bindFlags &&& sampleBindFlags.ConstantBuffer ≠ 0 ∧
    bufferAllFlagsDesc.bindFlags &&& sampleBindFlags.Sampled ≠ 0 ∧
    bufferAllFlagsDesc.bindFlags &&& sampleBindFlags.Storage ≠ 0 ∧
    ToGLResourceType sampleBindFlags legacyEnv bufferAllFlagsDesc = GLResourceType_UBO :=
  ⟨rfl, by decide, by decide, by decide,
    (ToGLResourceType_buffer sampleBindFlags legacyEnv bufferAllFlagsDesc rfl).1 (by decide)⟩

/-- C6. A texture binding resolves to the texture category whenever `Sampled` is set, also
when `Storage` is set too, and to the image category when `Storage` is set and `Sampled`
is not. -/
theorem ToGLResourceType_texture (BindFlags : BindFlagsValues) (env : GLEnvironment)
    (desc : BindingDescriptor) (ht : desc.type = ResourceType.Texture) :
    (desc.bindFlags &&& BindFlags.Sampled ≠ 0 →
      ToGLResourceType BindFlags env desc = GLResourceType_Texture) ∧
    (desc.bindFlags &&& BindFlags.Sampled = 0 → desc.bindFlags &&& BindFlags.Storage ≠ 0 →
      ToGLResourceType BindFlags env desc = GLResourceType_Image) := by
  unfold ToGLResourceType
  rw [ht]
  constructor
  · intro hs
    simp [hs]
  · intro hs hst
    simp [hs, hst]

/-- A texture with both `Sampled` and `Storage` set resolves to the texture category. -/
theorem ToGLResourceType_texture_witness :
    textureBothFlagsDesc.type = ResourceType.Texture ∧
    textureBothFlagsDesc.bindFlags &&& sampleBindFlags.Sampled ≠ 0 ∧
    textureBothFlagsDesc.bindFlags &&& sampleBindFlags.Storage ≠ 0 ∧
    ToGLResourceType sampleBindFlags legacyEnv textureBothFlagsDesc = GLResourceType_Texture :=
  ⟨rfl, by decide, by decide,
    (ToGLResourceType_texture sampleBindFlags legacyEnv textureBothFlagsDesc rfl).1 (by decide)⟩

/-- C7, as stated, fails: in a build without `LLGL_GL_ENABLE_OPENGL2X` a sampler binding
resolves to the native sampler category although native samplers are reported missing. -/
theorem ToGLResourceType_sampler_counterexample :
    samplerDesc.type = ResourceType.Sampler ∧
    coreOnlyEnv.HasNativeSamplers = false ∧
    ToGLResourceType sampleBindFlags coreOnlyEnv samplerDesc = GLResourceType_Sampler ∧
    ToGLResourceType sampleBindFlags coreOnlyEnv samplerDesc ≠ GLResourceType_GL2XSampler := by
  decide

/-- C7, amended. Two sampler bindings resolved in the same environment get the same
category whatever their flags, slots and names (and whatever the flag values) are: the
legacy category when the GL 2.x path is compiled in and native samplers are missing, the
native sampler category otherwise. -/
theorem ToGLResourceType_sampler (BindFlags BindFlags2 : BindFlagsValues) (env : GLEnvironment)
    (desc desc2 : BindingDescriptor)
    (h1 : desc.type = ResourceType.Sampler) (h2 : desc2.type = ResourceType.Sampler) :
    ToGLResourceType BindFlags env desc = ToGLResourceType BindFlags2 env desc2 ∧
    (env.HasNativeSamplers = true →
      ToGLResourceType BindFlags env desc = GLResourceType_Sampler) ∧
    (env.LLGL_GL_ENABLE_OPENGL2X = false →
      ToGLResourceType BindFlags env desc = GLResourceType_Sampler) ∧
    (env.LLGL_GL_ENABLE_OPENGL2X = true → env.HasNativeSamplers = false →
      ToGLResourceType BindFlags env desc = GLResourceType_GL2XSampler) := by
  unfold ToGLResourceType
  rw [h1, h2]
  refine ⟨rfl, ?_, ?_, ?_⟩
  · intro h
    simp [h]
  · intro h
    simp [h]
  · intro h h3
    simp [h, h3]

/-- A sampler binding in a legacy build without native samplers gets the legacy category,
like any other sampler binding there. -/
theorem ToGLResourceType_sampler_witness :
    (samplerDesc.type = ResourceType.Sampler ∧
      ({ samplerDesc with bindFlags := 100, slot := 7, name := "s" } : BindingDescriptor).type =
        ResourceType.Sampler) ∧
    ToGLResourceType sampleBindFlags legacyEnv samplerDesc =
      ToGLResourceType sampleBindFlags legacyEnv
        { samplerDesc with bindFlags := 100, slot := 7, name := "s" } ∧
    ToGLResourceType sampleBindFlags legacyEnv samplerDesc = GLResourceType_GL2XSampler :=
  ⟨⟨rfl, rfl⟩,
    (ToGLResourceType_sampler sampleBindFlags sampleBindFlags legacyEnv samplerDesc
      { samplerDesc with bindFlags := 100, slot := 7, name := "s" } rfl rfl).1,
    (ToGLResourceType_sampler sampleBindFlags sampleBindFlags legacyEnv samplerDesc
      { samplerDesc with bindFlags := 100, slot := 7, name := "s" } rfl rfl).2.2.2 rfl rfl⟩

/-- C8. The resolver is a total function, and it returns the invalid category exactly for
a buffer with none of `ConstantBuffer`, `Sampled`, `Storage` set, a texture with neither
`Sampled` nor `Storage` set, and a kind that is none of buffer, texture, sampler. -/
theorem ToGLResourceType_invalid_iff (BindFlags : BindFlagsValues) (env : GLEnvironment)
    (desc : BindingDescriptor) :
    ToGLResourceType BindFlags env desc = GLResourceType_Invalid ↔
      (desc.type = ResourceType.Buffer ∧
        desc.bindFlags &&& BindFlags.ConstantBuffer = 0 ∧
        desc.bindFlags &&& BindFlags.Sampled = 0 ∧
        desc.bindFlags &&& BindFlags.Storage = 0) ∨
      (desc.type = ResourceType.Texture ∧
        desc.bindFlags &&& BindFlags.Sampled = 0 ∧
        desc.bindFlags &&& BindFlags.Storage = 0) ∨
      (desc.type ≠ ResourceType.Buffer ∧ desc.type ≠ ResourceType.Texture ∧
        desc.type ≠ ResourceType.Sampler) := by
  have hor := and_lor_ne_zero_iff desc.bindFlags BindFlags.Sampled BindFlags.Storage
  unfold ToGLResourceType
  cases ht : desc.type with
  | Undefined => simp
  | Buffer =>
    by_cases hc : desc.bindFlags &&& BindFlags.ConstantBuffer = 0
    · by_cases hs : desc.bindFlags &&& (BindFlags.Sampled ||| BindFlags.Storage) = 0
      · have hs2 : ¬ (desc.bindFlags &&& BindFlags.Sampled ≠ 0 ∨
            desc.bindFlags &&& BindFlags.Storage ≠ 0) := fun h => (hor.mpr h) hs
        have h3 : desc.bindFlags &&& BindFlags.Sampled = 0 := by
          by_contra h
          exact hs2 (Or.inl h)
        have h4 : desc.bindFlags &&& BindFlags.Storage = 0 := by
          by_contra h
          exact hs2 (Or.inr h)
        simp [hc, hs, h3, h4]
      · have hs2 := hor.mp hs
        simp only [hc, hs, bne_self_eq_false, Bool.false_eq_true, if_false, bne_iff_ne, ne_eq,
          not_false_eq_true, if_true, true_and, false_and, or_false, reduceCtorEq, false_iff,
          not_and, not_true_eq_false, and_false, and_self]
        intro h3 h4
        rcases hs2 with h | h
        · exact h h3
        · exact h h4
    · simp [hc]
  | Texture =>
    by_cases hs : desc.bindFlags &&& BindFlags.Sampled = 0
    · by_cases hst : desc.bindFlags &&& BindFlags.Storage = 0
      · simp [hs, hst]
      · simp [hs, hst]
    · simp [hs]
  | Sampler =>
    cases env.LLGL_GL_ENABLE_OPENGL2X <;> cases env.HasNativeSamplers <;> simp

/-! ## Theorems: pipeline-layout construction -/

/-- A value in the 32-bit range is unchanged by the conversion. -/
theorem toUInt32_of_lt (x : Nat) (h : x < 2 ^ 32) : toUInt32 x = x :=
  Nat.mod_eq_of_lt h

/-- The scan finds a name exactly when some entry has a non-empty name. -/
theorem HasAnyNamedEntries_iff {α : Type} (name : α → String) (container : List α) :
    HasAnyNamedEntries name container = true ↔ ∃ entry ∈ container, name entry ≠ "" := by
  induction container with
  | nil => simp [HasAnyNamedEntries]
  | cons entry rest ih =>
    unfold HasAnyNamedEntries
    by_cases he : name entry = ""
    · have hEmpty : (name entry).isEmpty = true := (String.isEmpty_iff _).mpr he
      rw [hEmpty]
      simp only [Bool.not_true, Bool.false_eq_true, if_false]
      rw [ih]
      constructor
      · rintro ⟨e, he1, he2⟩
        exact ⟨e, List.mem_cons_of_mem _ he1, he2⟩
      · rintro ⟨e, he1, he2⟩
        rcases List.mem_cons.mp he1 with heq | hmem
        · rw [heq] at he2
          exact absurd he he2
        · exact ⟨e, hmem, he2⟩
    · have hEmpty : (name entry).isEmpty = false := by
        cases h : (name entry).isEmpty with
        | false => rfl
        | true => exact absurd ((String.isEmpty_iff _).mp h) he
      rw [hEmpty]
      simp only [Bool.not_false, if_true, true_iff]
      exact ⟨entry, List.mem_cons_self _ _, he⟩

namespace GLPipelineLayout

/-- The dynamic build step appends one resolved binding per descriptor, in order. -/
theorem BuildDynamicResourceBindings_bindings (BindFlags : BindFlagsValues)
    (env : GLEnvironment) (bindings : List BindingDescriptor) :
    ∀ self : GLPipelineLayout,
      (BuildDynamicResourceBindings BindFlags env self bindings).bindings_ =
        self.bindings_ ++ bindings.map (fun desc =>
          ({ type := ToGLResourceType BindFlags env desc, slot := toUInt32 desc.slot } :
            GLPipelineResourceBinding)) := by
  induction bindings with
  | nil =>
    intro self
    simp [BuildDynamicResourceBindings]
  | cons desc rest ih =>
    intro self
    have h := ih { self with
      bindings_ := self.bindings_ ++
        [{ type := ToGLResourceType BindFlags env desc, slot := toUInt32 desc.slot }]
      resourceNames_ := self.resourceNames_ ++ [desc.name] }
    unfold BuildDynamicResourceBindings at h ⊢
    rw [List.foldl_cons, h]
    simp

/-- The dynamic build step does not touch the named-bindings flag. -/
theorem BuildDynamicResourceBindings_hasNamedBindings (BindFlags : BindFlagsValues)
    (env : GLEnvironment) (bindings : List BindingDescriptor) :
    ∀ self : GLPipelineLayout,
      (BuildDynamicResourceBindings BindFlags env self bindings).hasNamedBindings_ =
        self.hasNamedBindings_ := by
  induction bindings with
  | nil =>
    intro self
    simp [BuildDynamicResourceBindings]
  | cons desc rest ih =>
    intro self
    have h := ih { self with
      bindings_ := self.bindings_ ++
        [{ type := ToGLResourceType BindFlags env desc, slot := toUInt32 desc.slot }]
      resourceNames_ := self.resourceNames_ ++ [desc.name] }
    unfold BuildDynamicResourceBindings at h ⊢
    rw [List.foldl_cons, h]

/-- The static-sampler build step touches neither the resolved bindings nor the
named-bindings flag. -/
theorem BuildStaticSamplers_frame (source : SamplerSource) (env : GLEnvironment)
    (staticSamplers : List StaticSamplerDescriptor) :
    ∀ self : GLPipelineLayout,
      (BuildStaticSamplers source env self staticSamplers).bindings_ = self.bindings_ ∧
      (BuildStaticSamplers source env self staticSamplers).hasNamedBindings_ =
        self.hasNamedBindings_ := by
  induction staticSamplers with
  | nil =>
    intro self
    simp [BuildStaticSamplers]
  | cons desc rest ih =>
    intro self
    unfold BuildStaticSamplers at ih ⊢
    by_cases hc : (env.LLGL_GL_ENABLE_OPENGL2X && !env.HasNativeSamplers) = true
    · simp only [hc, if_true, List.foldl_cons] at ih ⊢
      exact ih _
    · simp only [hc, if_false, List.foldl_cons] at ih ⊢
      exact ih _

/-- The resolved bindings of a constructed layout. -/
theorem ctor_bindings_eq (BindFlags : BindFlagsValues) (env : GLEnvironment)
    (source : SamplerSource) (desc : PipelineLayoutDescriptor) :
    (ctor BindFlags env source desc).bindings_ =
      desc.bindings.map (fun d =>
        ({ type := ToGLResourceType BindFlags env d, slot := toUInt32 d.slot } :
          GLPipelineResourceBinding)) := by
  unfold ctor
  simp only []
  rw [(BuildStaticSamplers_frame source env desc.staticSamplers _).1,
    BuildDynamicResourceBindings_bindings]
  simp

/-- The named-bindings flag of a constructed layout. -/
theorem ctor_hasNamedBindings_eq (BindFlags : BindFlagsValues) (env : GLEnvironment)
    (source : SamplerSource) (desc : PipelineLayoutDescriptor) :
    (ctor BindFlags env source desc).hasNamedBindings_ = HasAnyNamedResourceBindings desc := by
  unfold ctor
  simp only []
  rw [(BuildStaticSamplers_frame source env desc.staticSamplers _).2,
    BuildDynamicResourceBindings_hasNamedBindings]

/-- C9. The constructed layout has one resolved binding per dynamic binding descriptor,
in descriptor order: the counts agree, `GetNumBindings` returns that count, and entry `i`
carries the category `ToGLResourceType (bindings[i])` and the slot of `bindings[i]`, also
when that category is the invalid one.  Counts and slots are 32-bit values. -/
theorem ctor_resolved_bindings (BindFlags : BindFlagsValues) (env : GLEnvironment)
    (source : SamplerSource) (desc : PipelineLayoutDescriptor)
    (hcount : desc.bindings.length < 2 ^ 32)
    (hslot : ∀ b ∈ desc.bindings, b.slot < 2 ^ 32) :
    (ctor BindFlags env source desc).bindings_.length = desc.bindings.length ∧
    GetNumBindings (ctor BindFlags env source desc) = desc.bindings.length ∧
    ∀ (i : Nat) (h : i < desc.bindings.length),
      (ctor BindFlags env source desc).bindings_[i]? =
        some { type := ToGLResourceType BindFlags env desc.bindings[i],
               slot := desc.bindings[i].slot } := by
  have hlen : (ctor BindFlags env source desc).bindings_.length = desc.bindings.length := by
    rw [ctor_bindings_eq]
    simp
  refine ⟨hlen, ?_, ?_⟩
  · unfold GetNumBindings
    rw [hlen]
    exact toUInt32_of_lt _ hcount
  · intro i h
    rw [ctor_bindings_eq, List.getElem?_map, List.getElem?_eq_getElem h]
    simp only [Option.map_some']
    rw [toUInt32_of_lt _ (hslot _ (List.getElem_mem h))]

/-- The sample layout: three entries, the unresolvable second binding kept in place. -/
theorem ctor_resolved_bindings_witness :
    (sampleLayoutDesc.bindings.length < 2 ^ 32 ∧
      ∀ b ∈ sampleLayoutDesc.bindings, b.slot < 2 ^ 32) ∧
    GetNumBindings (ctor sampleBindFlags legacyEnv sampleSource sampleLayoutDesc) = 3 ∧
    (ctor sampleBindFlags legacyEnv sampleSource sampleLayoutDesc).bindings_[1]? =
      some { type := GLResourceType_Invalid, slot := 5 } :=
  ⟨⟨by decide, by decide⟩,
    (ctor_resolved_bindings sampleBindFlags legacyEnv sampleSource sampleLayoutDesc
      (by decide) (by decide)).2.1,
    (ctor_resolved_bindings sampleBindFlags legacyEnv sampleSource sampleLayoutDesc
      (by decide) (by decide)).2.2 1 (by decide)⟩

/-- C10. The named-bindings flag of a constructed layout is true exactly when some heap
binding, dynamic binding or static sampler has a non-empty name; the uniforms of the
descriptor have no influence on it. -/
theorem ctor_hasNamedBindings_iff (BindFlags : BindFlagsValues) (env : GLEnvironment)
    (source : SamplerSource) (desc : PipelineLayoutDescriptor) :
    ((ctor BindFlags env source desc).hasNamedBindings_ = true ↔
      (∃ b ∈ desc.heapBindings, b.name ≠ "") ∨
      (∃ b ∈ desc.bindings, b.name ≠ "") ∨
      (∃ s ∈ desc.staticSamplers, s.name ≠ "")) ∧
    (∀ uniforms : List UniformDescriptor,
      (ctor BindFlags env source { desc with uniforms := uniforms }).hasNamedBindings_ =
        (ctor BindFlags env source desc).hasNamedBindings_) := by
  constructor
  · rw [ctor_hasNamedBindings_eq]
    unfold HasAnyNamedResourceBindings
    rw [Bool.or_eq_true, Bool.or_eq_true, HasAnyNamedEntries_iff, HasAnyNamedEntries_iff,
      HasAnyNamedEntries_iff, or_assoc]
  · intro uniforms
    rw [ctor_hasNamedBindings_eq, ctor_hasNamedBindings_eq]
    rfl

end GLPipelineLayout

/-! ## Theorems: format bits -/

/-- The three guarded writes never fault; they leave every address that is not a provided
slot unchanged, and a provided slot holds its value unless a later slot is the same
address. -/
theorem SetFormatBits_spec (inColorBits inDepthBits inStencilBits : Nat)
    (outColorBits outDepthBits outStencilBits : Option Nat) (mem : IntMemory) :
    ∃ mem2 : IntMemory,
      SetFormatBits inColorBits inDepthBits inStencilBits outColorBits outDepthBits
        outStencilBits mem = some mem2 ∧
      (∀ a, outColorBits ≠ some a → outDepthBits ≠ some a → outStencilBits ≠ some a →
        mem2 a = mem a) ∧
      (∀ a, outColorBits = some a → outDepthBits ≠ some a → outStencilBits ≠ some a →
        mem2 a = toInt32 inColorBits) ∧
      (∀ a, outDepthBits = some a → outStencilBits ≠ some a → mem2 a = toInt32 inDepthBits) ∧
      (∀ a, outStencilBits = some a → mem2 a = toInt32 inStencilBits) := by
  cases outColorBits <;> cases outDepthBits <;> cases outStencilBits <;>
    simp [SetFormatBits, writeInt]
  all_goals aesop

/-- `GetFormatBits` is `SetFormatBits` at the bit split of the format, followed by the
return of the total bit size. -/
theorem GetFormatBits_eq (GetFormatAttribs : Format → FormatAttributes) (format : Format)
    (outColorBits outDepthBits outStencilBits : Option Nat) (mem : IntMemory) :
    GetFormatBits GetFormatAttribs format outColorBits outDepthBits outStencilBits mem =
      (SetFormatBits (formatBitSplit GetFormatAttribs format).1
        (formatBitSplit GetFormatAttribs format).2.1
        (formatBitSplit GetFormatAttribs format).2.2
        outColorBits outDepthBits outStencilBits mem).map
        (fun mem2 => ((GetFormatAttribs format).bitSize % 2 ^ 32, mem2)) := by
  cases format <;> simp [GetFormatBits, formatBitSplit, Option.map_eq_bind, Function.comp_def]

/-- What `GetFormatBits` does for any format and any three output pointers: it returns the
total bit size and writes the bit split of the format through the provided pointers. -/
theorem GetFormatBits_spec (GetFormatAttribs : Format → FormatAttributes) (format : Format)
    (outColorBits outDepthBits outStencilBits : Option Nat) (mem : IntMemory) :
    ∃ mem2 : IntMemory,
      GetFormatBits GetFormatAttribs format outColorBits outDepthBits outStencilBits mem =
        some ((GetFormatAttribs format).bitSize % 2 ^ 32, mem2) ∧
      (∀ a, outColorBits ≠ some a → outDepthBits ≠ some a → outStencilBits ≠ some a →
        mem2 a = mem a) ∧
      (∀ a, outColorBits = some a → outDepthBits ≠ some a → outStencilBits ≠ some a →
        mem2 a = toInt32 (formatBitSplit GetFormatAttribs format).1) ∧
      (∀ a, outDepthBits = some a → outStencilBits ≠ some a →
        mem2 a = toInt32 (formatBitSplit GetFormatAttribs format).2.1) ∧
      (∀ a, outStencilBits = some a →
        mem2 a = toInt32 (formatBitSplit GetFormatAttribs format).2.2) := by
  obtain ⟨mem2, h, hrest⟩ := SetFormatBits_spec (formatBitSplit GetFormatAttribs format).1
    (formatBitSplit GetFormatAttribs format).2.1 (formatBitSplit GetFormatAttribs format).2.2
    outColorBits outDepthBits outStencilBits mem
  refine ⟨mem2, ?_, hrest⟩
  rw [GetFormatBits_eq, h]
  rfl

/-- The same with three pairwise distinct non-null pointers. -/
theorem GetFormatBits_distinct (GetFormatAttribs : Format → FormatAttributes) (format : Format)
    (c d s : Nat) (mem : IntMemory) (hcd : c ≠ d) (hcs : c ≠ s) (hds : d ≠ s) :
    ∃ mem2 : IntMemory,
      GetFormatBits GetFormatAttribs format (some c) (some d) (some s) mem =
        some ((GetFormatAttribs format).bitSize % 2 ^ 32, mem2) ∧
      mem2 c = toInt32 (formatBitSplit GetFormatAttribs format).1 ∧
      mem2 d = toInt32 (formatBitSplit GetFormatAttribs format).2.1 ∧
      mem2 s = toInt32 (formatBitSplit GetFormatAttribs format).2.2 := by
  obtain ⟨mem2, h, _, hc, hd, hs⟩ :=
    GetFormatBits_spec GetFormatAttribs format (some c) (some d) (some s) mem
  refine ⟨mem2, h, hc c rfl ?_ ?_, hd d rfl ?_, hs s rfl⟩
  · intro heq
    exact hcd (Option.some.inj heq).symm
  · intro heq
    exact hcs (Option.some.inj heq).symm
  · intro heq
    exact hds (Option.some.inj heq).symm

/-- A bit count below `2 ^ 31` is unchanged by the conversion to `int`. -/
theorem toInt32_of_lt (x : Nat) (h : x < 2 ^ 31) : toInt32 x = (x : Int) := by
  unfold toInt32
  have h2 : x % 2 ^ 32 = x := Nat.mod_eq_of_lt (by omega)
  rw [h2, if_pos h]

/-- C11, as stated, fails: for `D16UNorm` the 16 bits are written to the depth slot and 0
to the color slot, not 16 to the color slot. -/
theorem GetFormatBits_D16UNorm_counterexample :
    (GetFormatBits sampleGetFormatAttribs Format.D16UNorm (some 0) (some 1) (some 2)
      sampleMemory).map (fun r => (r.2 0, r.2 1, r.2 2)) = some (0, 16, 0) ∧
    (GetFormatBits sampleGetFormatAttribs Format.D16UNorm (some 0) (some 1) (some 2)
      sampleMemory).map (fun r => (r.2 0, r.2 1, r.2 2)) ≠ some (16, 0, 0) := by
  decide

/-- C11, amended. Called with three distinct output slots, `GetFormatBits` writes the
(color, depth, stencil) bits 0/16/0 for `D16UNorm`, 0/24/8 for `D24UNormS8UInt`, 0/32/0 for
`D32Float` and 0/32/8 for `D32FloatS8X24UInt`, whatever the format-attribute table is. -/
theorem GetFormatBits_depth_stencil_splits (GetFormatAttribs : Format → FormatAttributes)
    (c d s : Nat) (mem : IntMemory) (hcd : c ≠ d) (hcs : c ≠ s) (hds : d ≠ s) :
    (∃ mem2 : IntMemory,
      GetFormatBits GetFormatAttribs Format.D16UNorm (some c) (some d) (some s) mem =
        some ((GetFormatAttribs Format.D16UNorm).bitSize % 2 ^ 32, mem2) ∧
      mem2 c = 0 ∧ mem2 d = 16 ∧ mem2 s = 0) ∧
    (∃ mem2 : IntMemory,
      GetFormatBits GetFormatAttribs Format.D24UNormS8UInt (some c) (some d) (some s) mem =
        some ((GetFormatAttribs Format.D24UNormS8UInt).bitSize % 2 ^ 32, mem2) ∧
      mem2 c = 0 ∧ mem2 d = 24 ∧ mem2 s = 8) ∧
    (∃ mem2 : IntMemory,
      GetFormatBits GetFormatAttribs Format.D32Float (some c) (some d) (some s) mem =
        some ((GetFormatAttribs Format.D32Float).bitSize % 2 ^ 32, mem2) ∧
      mem2 c = 0 ∧ mem2 d = 32 ∧ mem2 s = 0) ∧
    (∃ mem2 : IntMemory,
      GetFormatBits GetFormatAttribs Format.D32FloatS8X24UInt (some c) (some d) (some s) mem =
        some ((GetFormatAttribs Format.D32FloatS8X24UInt).bitSize % 2 ^ 32, mem2) ∧
      mem2 c = 0 ∧ mem2 d = 32 ∧ mem2 s = 8) := by
  refine ⟨?_, ?_, ?_, ?_⟩
  · obtain ⟨mem2, h, h1, h2, h3⟩ :=
      GetFormatBits_distinct GetFormatAttribs Format.D16UNorm c d s mem hcd hcs hds
    exact ⟨mem2, h, h1, h2, h3⟩
  · obtain ⟨mem2, h, h1, h2, h3⟩ :=
      GetFormatBits_distinct GetFormatAttribs Format.D24UNormS8UInt c d s mem hcd hcs hds
    exact ⟨mem2, h, h1, h2, h3⟩
  · obtain ⟨mem2, h, h1, h2, h3⟩ :=
      GetFormatBits_distinct GetFormatAttribs Format.D32Float c d s mem hcd hcs hds
    exact ⟨mem2, h, h1, h2, h3⟩
  · obtain ⟨mem2, h, h1, h2, h3⟩ :=
      GetFormatBits_distinct GetFormatAttribs Format.D32FloatS8X24UInt c d s mem hcd hcs hds
    exact ⟨mem2, h, h1, h2, h3⟩

/-- The four depth formats written to the slots at addresses 0, 1 and 2. -/
theorem GetFormatBits_depth_stencil_splits_witness :
    ((0 : Nat) ≠ 1 ∧ (0 : Nat) ≠ 2 ∧ (1 : Nat) ≠ 2) ∧
    (∃ mem2 : IntMemory,
      GetFormatBits sampleGetFormatAttribs Format.D24UNormS8UInt (some 0) (some 1) (some 2)
        sampleMemory = some ((sampleGetFormatAttribs Format.D24UNormS8UInt).bitSize % 2 ^ 32,
          mem2) ∧
      mem2 0 = 0 ∧ mem2 1 = 24 ∧ mem2 2 = 8) :=
  ⟨⟨by decide, by decide, by decide⟩,
    (GetFormatBits_depth_stencil_splits sampleGetFormatAttribs 0 1 2 sampleMemory
      (by decide) (by decide) (by decide)).2.1⟩

/-- For a format outside the four depth formats the split is the total bit size as color
bits and no depth or stencil bits. -/
theorem formatBitSplit_other (GetFormatAttribs : Format → FormatAttributes) (format : Format)
    (h1 : format ≠ Format.D16UNorm) (h2 : format ≠ Format.D24UNormS8UInt)
    (h3 : format ≠ Format.D32Float) (h4 : format ≠ Format.D32FloatS8X24UInt) :
    formatBitSplit GetFormatAttribs format = ((GetFormatAttribs format).bitSize % 2 ^ 32, 0, 0) := by
  cases format <;> simp_all [formatBitSplit]

/-- C12. `GetFormatBits` returns the total bit size of the format-attribute table for every
format and every choice of output slots; for a format other than the four depth formats the
color slot receives that total bit size and the depth and stencil slots receive 0.  The bit
size is a value of the `int` range. -/
theorem GetFormatBits_total_bit_size (GetFormatAttribs : Format → FormatAttributes)
    (format : Format) (hsize : (GetFormatAttribs format).bitSize < 2 ^ 31) :
    (∀ (outColorBits outDepthBits outStencilBits : Option Nat) (mem : IntMemory),
      (GetFormatBits GetFormatAttribs format outColorBits outDepthBits outStencilBits mem).map
        Prod.fst = some (GetFormatAttribs format).bitSize) ∧
    (format ≠ Format.D16UNorm → format ≠ Format.D24UNormS8UInt →
      format ≠ Format.D32Float → format ≠ Format.D32FloatS8X24UInt →
      ∀ (c d s : Nat) (mem : IntMemory), c ≠ d → c ≠ s → d ≠ s →
        ∃ mem2 : IntMemory,
          GetFormatBits GetFormatAttribs format (some c) (some d) (some s) mem =
            some ((GetFormatAttribs format).bitSize, mem2) ∧
          mem2 c = ((GetFormatAttribs format).bitSize : Int) ∧ mem2 d = 0 ∧ mem2 s = 0) := by
  have hmod : (GetFormatAttribs format).bitSize % 2 ^ 32 = (GetFormatAttribs format).bitSize :=
    Nat.mod_eq_of_lt (by omega)
  constructor
  · intro outColorBits outDepthBits outStencilBits mem
    obtain ⟨mem2, h, _⟩ :=
      GetFormatBits_spec GetFormatAttribs format outColorBits outDepthBits outStencilBits mem
    rw [h, hmod]
    rfl
  · intro h1 h2 h3 h4 c d s mem hcd hcs hds
    obtain ⟨mem2, h, hc, hd, hs⟩ :=
      GetFormatBits_distinct GetFormatAttribs format c d s mem hcd hcs hds
    rw [formatBitSplit_other GetFormatAttribs format h1 h2 h3 h4] at hc hd hs
    rw [hmod] at h hc
    refine ⟨mem2, h, ?_, hd, hs⟩
    rw [hc]
    exact toInt32_of_lt _ hsize

/-- With the sample table, the returned size of `D24UNormS8UInt` is 32 without any output
slot, and a color format of 32 bits writes 32 / 0 / 0. -/
theorem GetFormatBits_total_bit_size_witness :
    ((sampleGetFormatAttribs Format.D24UNormS8UInt).bitSize < 2 ^ 31 ∧
      (sampleGetFormatAttribs (Format.Other 0)).bitSize < 2 ^ 31) ∧
    (GetFormatBits sampleGetFormatAttribs Format.D24UNormS8UInt none none none sampleMemory).map
      Prod.fst = some 32 ∧
    (∃ mem2 : IntMemory,
      GetFormatBits sampleGetFormatAttribs (Format.Other 0) (some 0) (some 1) (some 2)
        sampleMemory = some (32, mem2) ∧
      mem2 0 = 32 ∧ mem2 1 = 0 ∧ mem2 2 = 0) :=
  ⟨⟨by decide, by decide⟩,
    (GetFormatBits_total_bit_size sampleGetFormatAttribs Format.D24UNormS8UInt (by decide)).1
      none none none sampleMemory,
    (GetFormatBits_total_bit_size sampleGetFormatAttribs (Format.Other 0) (by decide)).2
      (by decide) (by decide) (by decide) (by decide) 0 1 2 sampleMemory
      (by decide) (by decide) (by decide)⟩

/-- C13. For every format there are three values such that, for every choice of provided
output slots (`none` is an omitted slot) and every memory, `GetFormatBits` does not fault,
leaves every address that is not a provided slot unchanged, and stores the color, depth and
stencil value in the provided color, depth and stencil slot (a slot that shares its address
with a later one holds the later value). -/
theorem GetFormatBits_frame (GetFormatAttribs : Format → FormatAttributes) (format : Format) :
    ∃ colorBits depthBits stencilBits : Int,
      ∀ (outColorBits outDepthBits outStencilBits : Option Nat) (mem : IntMemory),
        ∃ mem2 : IntMemory,
          GetFormatBits GetFormatAttribs format outColorBits outDepthBits outStencilBits mem =
            some ((GetFormatAttribs format).bitSize % 2 ^ 32, mem2) ∧
          (∀ a, outColorBits ≠ some a → outDepthBits ≠ some a → outStencilBits ≠ some a →
            mem2 a = mem a) ∧
          (∀ a, outColorBits = some a → outDepthBits ≠ some a → outStencilBits ≠ some a →
            mem2 a = colorBits) ∧
          (∀ a, outDepthBits = some a → outStencilBits ≠ some a → mem2 a = depthBits) ∧
          (∀ a, outStencilBits = some a → mem2 a = stencilBits) :=
  ⟨toInt32 (formatBitSplit GetFormatAttribs format).1,
    toInt32 (formatBitSplit GetFormatAttribs format).2.1,
    toInt32 (formatBitSplit GetFormatAttribs format).2.2,
    fun outColorBits outDepthBits outStencilBits mem =>
      GetFormatBits_spec GetFormatAttribs format outColorBits outDepthBits outStencilBits mem⟩

/-! ## Theorems: resolve attachments -/

theorem NumActiveResolveAttachments.loop_next {MAX : Nat} (d : RenderTargetDescriptor MAX)
    (i n : Nat) (h : i < MAX) (he : IsAttachmentEnabled (d.colorAttachments ⟨i, h⟩) = true) :
    NumActiveResolveAttachments.loop d i n =
      NumActiveResolveAttachments.loop d (i + 1)
        (if (d.resolveAttachments ⟨i, h⟩).texture != none then n + 1 else n) := by
  rw [NumActiveResolveAttachments.loop]
  simp [h, he]

theorem NumActiveResolveAttachments.loop_exit {MAX : Nat} (d : RenderTargetDescriptor MAX)
    (i n : Nat) (h : i < MAX) (he : IsAttachmentEnabled (d.colorAttachments ⟨i, h⟩) = false) :
    NumActiveResolveAttachments.loop d i n = n := by
  rw [NumActiveResolveAttachments.loop]
  simp [h, he]

theorem NumActiveResolveAttachments.loop_end {MAX : Nat} (d : RenderTargetDescriptor MAX)
    (i n : Nat) (h : ¬ i < MAX) :
    NumActiveResolveAttachments.loop d i n = n := by
  rw [NumActiveResolveAttachments.loop]
  simp [h]

/-- Invariant of the resolve loop: entered at index `i` with the number of textured resolve
slots below `i`, it returns the number of textured resolve slots below the index at which the
color loop entered at `i` stops. -/
theorem NumActiveResolveAttachments.loop_count {MAX : Nat} (d : RenderTargetDescriptor MAX) :
    ∀ (k i n : Nat), MAX - i = k →
      n = (List.range i).countP (hasResolveTexture d) →
      NumActiveResolveAttachments.loop d i n =
        (List.range (NumActiveColorAttachments.loop d i)).countP (hasResolveTexture d) := by
  intro k
  induction k with
  | zero =>
    intro i n hk hn
    have hge : ¬ i < MAX := by omega
    rw [NumActiveResolveAttachments.loop_end d i n hge,
      NumActiveColorAttachments.loop_full d i hge]
    exact hn
  | succ k ih =>
    intro i n hk hn
    have hlt : i < MAX := by omega
    cases he : IsAttachmentEnabled (d.colorAttachments ⟨i, hlt⟩) with
    | false =>
      rw [NumActiveResolveAttachments.loop_exit d i n hlt he,
        NumActiveColorAttachments.loop_stop d i hlt he]
      exact hn
    | true =>
      rw [NumActiveResolveAttachments.loop_next d i n hlt he,
        NumActiveColorAttachments.loop_step d i hlt he]
      apply ih (i + 1) _ (by omega)
      rw [List.range_succ, List.countP_append, List.countP_singleton, ← hn]
      have hres : hasResolveTexture d i = (d.resolveAttachments ⟨i, hlt⟩).texture.isSome := by
        unfold hasResolveTexture
        rw [dif_pos hlt]
      rw [hres]
      cases (d.resolveAttachments ⟨i, hlt⟩).texture <;> simp

/-- The resolve count as a count over the active color range. -/
theorem NumActiveResolveAttachments_eq_countP {MAX : Nat} (d : RenderTargetDescriptor MAX) :
    NumActiveResolveAttachments d =
      (List.range (NumActiveColorAttachments d)).countP (hasResolveTexture d) :=
  NumActiveResolveAttachments.loop_count d (MAX - 0) 0 0 rfl rfl

/-- The color count depends on the color attachments only. -/
theorem NumActiveColorAttachments_congr {MAX : Nat} (d d2 : RenderTargetDescriptor MAX)
    (h : d2.colorAttachments = d.colorAttachments) :
    NumActiveColorAttachments d2 = NumActiveColorAttachments d := by
  rcases NumActiveColorAttachments_stop d with hfull | ⟨i, hi, hdis⟩
  · rcases NumActiveColorAttachments_stop d2 with hfull2 | ⟨j, hj, hdis2⟩
    · rw [hfull, hfull2]
    · have hjlt : j.val < NumActiveColorAttachments d := by
        rw [hfull]
        exact j.isLt
      have hen := NumActiveColorAttachments_enabled d j hjlt
      rw [h] at hdis2
      rw [hdis2] at hen
      exact Bool.noConfusion hen
  · rw [← hi]
    apply NumActiveColorAttachments_eq_first_disabled d2 i
    · intro j hj
      rw [h]
      exact NumActiveColorAttachments_enabled d j (by omega)
    · rw [h]
      exact hdis

/-- C14. `NumActiveResolveAttachments` is the number of indices below
`NumActiveColorAttachments` whose resolve attachment has a texture: it is at most the color
count, and it is the same for two descriptors with the same color attachments whose resolve
attachments agree, on the active color range, on having a texture (formats of resolve
attachments and resolve slots from the first disabled color slot on are never looked at). -/
theorem NumActiveResolveAttachments_counts_textures_of_active_range :
    (∀ (MAX : Nat) (d : RenderTargetDescriptor MAX),
      NumActiveResolveAttachments d =
        (List.range (NumActiveColorAttachments d)).countP (hasResolveTexture d) ∧
      NumActiveResolveAttachments d ≤ NumActiveColorAttachments d ∧
      (∀ d2 : RenderTargetDescriptor MAX, d2.colorAttachments = d.colorAttachments →
        (∀ i : Fin MAX, i.val < NumActiveColorAttachments d →
          (d2.resolveAttachments i).texture.isSome = (d.resolveAttachments i).texture.isSome) →
        NumActiveResolveAttachments d2 = NumActiveResolveAttachments d)) ∧
    (resolveDesc.resolveAttachments 1).format ≠ Format.Undefined ∧
    (resolveDesc.resolveAttachments 3).texture ≠ none ∧
    NumActiveColorAttachments resolveDesc = 2 ∧
    NumActiveResolveAttachments resolveDesc = 1 := by
  have hcolor : NumActiveColorAttachments resolveDesc = 2 :=
    NumActiveColorAttachments_eq_first_disabled resolveDesc 2 (by decide) (by decide)
  refine ⟨fun MAX d => ⟨NumActiveResolveAttachments_eq_countP d, ?_, ?_⟩, by decide, by decide,
    hcolor, ?_⟩
  · rw [NumActiveResolveAttachments_eq_countP]
    calc (List.range (NumActiveColorAttachments d)).countP (hasResolveTexture d)
        ≤ (List.range (NumActiveColorAttachments d)).length := List.countP_le_length _
      _ = NumActiveColorAttachments d := List.length_range _
  · intro d2 hc hr
    rw [NumActiveResolveAttachments_eq_countP, NumActiveResolveAttachments_eq_countP,
      NumActiveColorAttachments_congr d d2 hc]
    apply List.countP_congr
    intro i hi
    have hilt : i < NumActiveColorAttachments d := List.mem_range.mp hi
    have hiMax : i < MAX := lt_of_lt_of_le hilt (NumActiveColorAttachments_le d)
    unfold hasResolveTexture
    rw [dif_pos hiMax, dif_pos hiMax, hr ⟨i, hiMax⟩ hilt]
  · rw [NumActiveResolveAttachments_eq_countP, hcolor]
    decide

/-! ## Theorems: active attachments and idempotence of the clamp -/

/-- C18. `HasAnyActiveAttachments` is true exactly when the active color-attachment count
is positive or the depth/stencil attachment is enabled, that is, exactly when color
attachment 0 or the depth/stencil attachment is enabled; with both disabled there is no
active attachment, whatever the later color slots are. -/
theorem HasAnyActiveAttachments_iff {MAX : Nat} (hMax : 0 < MAX)
    (desc : RenderTargetDescriptor MAX) :
    (HasAnyActiveAttachments desc = true ↔
      NumActiveColorAttachments desc > 0 ∨
        IsAttachmentEnabled desc.depthStencilAttachment = true) ∧
    (HasAnyActiveAttachments desc = true ↔
      IsAttachmentEnabled (desc.colorAttachments ⟨0, hMax⟩) = true ∨
        IsAttachmentEnabled desc.depthStencilAttachment = true) ∧
    (IsAttachmentEnabled (desc.colorAttachments ⟨0, hMax⟩) = false →
      IsAttachmentEnabled desc.depthStencilAttachment = false →
      HasAnyActiveAttachments desc = false) := by
  refine ⟨?_, ?_, ?_⟩
  · unfold HasAnyActiveAttachments
    rw [Bool.or_eq_true, decide_eq_true_eq]
  · rw [HasAnyActiveAttachments_eq hMax, Bool.or_eq_true]
  · intro hc hd
    rw [HasAnyActiveAttachments_eq hMax, hc, hd]
    rfl

/-- Color slots 1 and 3 enabled behind a disabled slot 0, no depth/stencil attachment: no
attachment is active. -/
theorem HasAnyActiveAttachments_iff_witness :
    (0 < 8) ∧
    IsAttachmentEnabled (lateOnlyDesc.colorAttachments 1) = true ∧
    IsAttachmentEnabled (lateOnlyDesc.colorAttachments 3) = true ∧
    HasAnyActiveAttachments lateOnlyDesc = false :=
  ⟨by decide, by decide, by decide,
    (HasAnyActiveAttachments_iff (by decide) lateOnlyDesc).2.2 (by decide) (by decide)⟩

/-- C20. The clamp never exceeds the request, and clamping the descriptor whose sample
count is replaced by the clamped value returns that value again. -/
theorem GetLimitedRenderTargetSamples_idempotent
    (IsDepthFormat IsStencilFormat : Format → Bool) {MAX : Nat} (hMax : 0 < MAX)
    (limits : RenderingLimits) (desc : RenderTargetDescriptor MAX) :
    GetLimitedRenderTargetSamples IsDepthFormat IsStencilFormat hMax limits desc ≤ desc.samples ∧
    GetLimitedRenderTargetSamples IsDepthFormat IsStencilFormat hMax limits
      { desc with
        samples := GetLimitedRenderTargetSamples IsDepthFormat IsStencilFormat hMax limits desc } =
      GetLimitedRenderTargetSamples IsDepthFormat IsStencilFormat hMax limits desc := by
  have hA : ∀ r : Nat, HasAnyActiveAttachments { desc with samples := r } =
      HasAnyActiveAttachments desc := by
    intro r
    rw [HasAnyActiveAttachments_eq hMax, HasAnyActiveAttachments_eq hMax]
  unfold GetLimitedRenderTargetSamples
  simp only [hA]
  cases HasAnyActiveAttachments desc <;>
    cases IsAttachmentEnabled (desc.colorAttachments ⟨0, hMax⟩) <;>
    cases IsDepthFormat (GetAttachmentFormat desc.depthStencilAttachment) <;>
    cases IsStencilFormat (GetAttachmentFormat desc.depthStencilAttachment) <;>
    by_cases hs : desc.samples > 0 <;>
    simp [hs] <;> omega

/-- The request of 8 samples against a color limit of 4: the clamp gives 4, and 4 again. -/
theorem GetLimitedRenderTargetSamples_idempotent_witness :
    (0 < 8) ∧
    GetLimitedRenderTargetSamples sampleIsDepthFormat sampleIsStencilFormat (by decide)
      sampleLimits colorOnlyDesc ≤ colorOnlyDesc.samples ∧
    GetLimitedRenderTargetSamples sampleIsDepthFormat sampleIsStencilFormat (by decide)
      sampleLimits
      { colorOnlyDesc with
        samples := GetLimitedRenderTargetSamples sampleIsDepthFormat sampleIsStencilFormat
          (by decide) sampleLimits colorOnlyDesc } =
      GetLimitedRenderTargetSamples sampleIsDepthFormat sampleIsStencilFormat (by decide)
        sampleLimits colorOnlyDesc :=
  ⟨by decide,
    (GetLimitedRenderTargetSamples_idempotent sampleIsDepthFormat sampleIsStencilFormat
      (by decide) sampleLimits colorOnlyDesc).1,
    (GetLimitedRenderTargetSamples_idempotent sampleIsDepthFormat sampleIsStencilFormat
      (by decide) sampleLimits colorOnlyDesc).2⟩

/-! ## Theorems: native handle -/

/-- C15. `GetNativeHandle` never faults; it returns true exactly when the buffer pointer is
not null and the size is `sizeof(NativeHandle)`; on success the buffer holds the window of
the canvas, on failure the buffer is unchanged; a size one byte smaller or larger fails. -/
theorem GetNativeHandle_spec (sizeofNativeHandle : Nat) (self : AndroidCanvas)
    (nativeHandle : Option NativeHandle) (nativeHandleSize : Nat) :
    (∃ (ok : Bool) (buffer : Option NativeHandle),
      AndroidCanvas.GetNativeHandle sizeofNativeHandle self nativeHandle nativeHandleSize =
        some (ok, buffer) ∧
      (ok = true ↔ nativeHandle ≠ none ∧ nativeHandleSize = sizeofNativeHandle) ∧
      (ok = true → ∃ handle, nativeHandle = some handle ∧
        buffer = some { handle with window := self.window_ } ∧
        ∀ handle2, buffer = some handle2 → handle2.window = self.window_) ∧
      (ok = false → buffer = nativeHandle)) ∧
    (∀ handle : NativeHandle,
      AndroidCanvas.GetNativeHandle sizeofNativeHandle self (some handle) sizeofNativeHandle =
        some (true, some { handle with window := self.window_ }) ∧
      AndroidCanvas.GetNativeHandle sizeofNativeHandle self (some handle)
        (sizeofNativeHandle + 1) = some (false, some handle) ∧
      (0 < sizeofNativeHandle →
        AndroidCanvas.GetNativeHandle sizeofNativeHandle self (some handle)
          (sizeofNativeHandle - 1) = some (false, some handle))) ∧
    AndroidCanvas.GetNativeHandle sizeofNativeHandle self none sizeofNativeHandle =
      some (false, none) := by
  refine ⟨?_, ?_, ?_⟩
  · cases nativeHandle with
    | none =>
      refine ⟨false, none, ?_, ?_, ?_, ?_⟩
      · simp [AndroidCanvas.GetNativeHandle]
      · simp
      · intro h
        exact Bool.noConfusion h
      · intro _
        rfl
    | some handle =>
      by_cases hsize : nativeHandleSize = sizeofNativeHandle
      · refine ⟨true, some { handle with window := self.window_ }, ?_, ?_, ?_, ?_⟩
        · simp [AndroidCanvas.GetNativeHandle, hsize]
        · simp [hsize]
        · intro _
          refine ⟨handle, rfl, rfl, ?_⟩
          intro handle2 h2
          rw [← Option.some.inj h2]
        · intro h
          exact Bool.noConfusion h
      · refine ⟨false, some handle, ?_, ?_, ?_, ?_⟩
        · simp [AndroidCanvas.GetNativeHandle, hsize]
        · simp [hsize]
        · intro h
          exact Bool.noConfusion h
        · intro _
          rfl
  · intro handle
    refine ⟨?_, ?_, ?_⟩
    · simp [AndroidCanvas.GetNativeHandle]
    · simp [AndroidCanvas.GetNativeHandle]
    · intro hpos
      have hne : sizeofNativeHandle - 1 ≠ sizeofNativeHandle := by omega
      simp [AndroidCanvas.GetNativeHandle, hne]
  · simp [AndroidCanvas.GetNativeHandle]

/-! ## Theorems: static samplers -/

namespace GLPipelineLayout

/-- The dynamic build step does not touch the static-sampler members. -/
theorem BuildDynamicResourceBindings_samplers (BindFlags : BindFlagsValues)
    (env : GLEnvironment) (bindings : List BindingDescriptor) :
    ∀ self : GLPipelineLayout,
      (BuildDynamicResourceBindings BindFlags env self bindings).staticSamplerSlots_ =
        self.staticSamplerSlots_ ∧
      (BuildDynamicResourceBindings BindFlags env self bindings).staticSamplers_ =
        self.staticSamplers_ ∧
      (BuildDynamicResourceBindings BindFlags env self bindings).staticSamplersGL2X_ =
        self.staticSamplersGL2X_ := by
  induction bindings with
  | nil =>
    intro self
    simp [BuildDynamicResourceBindings]
  | cons desc rest ih =>
    intro self
    have h := ih { self with
      bindings_ := self.bindings_ ++
        [{ type := ToGLResourceType BindFlags env desc, slot := toUInt32 desc.slot }]
      resourceNames_ := self.resourceNames_ ++ [desc.name] }
    unfold BuildDynamicResourceBindings at h ⊢
    rw [List.foldl_cons]
    exact h

/-- The static-sampler build step on the legacy path: one slot and one new emulated sampler
per descriptor, in order; no native sampler is created. -/
theorem BuildStaticSamplers_legacy (source : SamplerSource) (env : GLEnvironment)
    (hpath : (env.LLGL_GL_ENABLE_OPENGL2X && !env.HasNativeSamplers) = true)
    (staticSamplers : List StaticSamplerDescriptor) :
    ∀ self : GLPipelineLayout,
      (BuildStaticSamplers source env self staticSamplers).staticSamplerSlots_ =
        self.staticSamplerSlots_ ++ staticSamplers.map (fun desc => toUInt32 desc.slot) ∧
      (BuildStaticSamplers source env self staticSamplers).staticSamplersGL2X_ =
        self.staticSamplersGL2X_ ++
          List.zipWith
            (fun k desc => (GL2XSampler.make (source.newGL2XSampler k)).SetDesc desc.sampler)
            (List.range' self.staticSamplersGL2X_.length staticSamplers.length)
            staticSamplers ∧
      (BuildStaticSamplers source env self staticSamplers).staticSamplers_ =
        self.staticSamplers_ := by
  induction staticSamplers with
  | nil =>
    intro self
    simp [BuildStaticSamplers]
  | cons desc rest ih =>
    intro self
    unfold BuildStaticSamplers at ih ⊢
    simp only [hpath, if_true, List.foldl_cons] at ih ⊢
    obtain ⟨h1, h2, h3⟩ := ih { self with
      staticSamplersGL2X_ := self.staticSamplersGL2X_ ++
        [(GL2XSampler.make (source.newGL2XSampler self.staticSamplersGL2X_.length)).SetDesc
          desc.sampler]
      staticSamplerSlots_ := self.staticSamplerSlots_ ++ [toUInt32 desc.slot]
      resourceNames_ := self.resourceNames_ ++ [desc.name] }
    rw [h1, h2, h3]
    simp [List.range'_succ]

/-- The static-sampler build step on the native path: one slot and one new native sampler
per descriptor, in order; no emulated sampler is created. -/
theorem BuildStaticSamplers_native (source : SamplerSource) (env : GLEnvironment)
    (hpath : (env.LLGL_GL_ENABLE_OPENGL2X && !env.HasNativeSamplers) = false)
    (staticSamplers : List StaticSamplerDescriptor) :
    ∀ self : GLPipelineLayout,
      (BuildStaticSamplers source env self staticSamplers).staticSamplerSlots_ =
        self.staticSamplerSlots_ ++ staticSamplers.map (fun desc => toUInt32 desc.slot) ∧
      (BuildStaticSamplers source env self staticSamplers).staticSamplers_ =
        self.staticSamplers_ ++
          List.zipWith
            (fun k desc => (GLSampler.make (source.glGenSamplers k)).SetDesc desc.sampler)
            (List.range' self.staticSamplers_.length staticSamplers.length)
            staticSamplers ∧
      (BuildStaticSamplers source env self staticSamplers).staticSamplersGL2X_ =
        self.staticSamplersGL2X_ := by
  induction staticSamplers with
  | nil =>
    intro self
    simp [BuildStaticSamplers]
  | cons desc rest ih =>
    intro self
    unfold BuildStaticSamplers at ih ⊢
    simp only [hpath, Bool.false_eq_true, if_false, List.foldl_cons] at ih ⊢
    obtain ⟨h1, h2, h3⟩ := ih { self with
      staticSamplers_ := self.staticSamplers_ ++
        [(GLSampler.make (source.glGenSamplers self.staticSamplers_.length)).SetDesc
          desc.sampler]
      staticSamplerSlots_ := self.staticSamplerSlots_ ++ [toUInt32 desc.slot]
      resourceNames_ := self.resourceNames_ ++ [desc.name] }
    rw [h1, h2, h3]
    simp [List.range'_succ]

/-- The static-sampler members of a layout constructed on the legacy path. -/
theorem ctor_samplers_legacy (BindFlags : BindFlagsValues) (env : GLEnvironment)
    (source : SamplerSource) (desc : PipelineLayoutDescriptor)
    (hpath : (env.LLGL_GL_ENABLE_OPENGL2X && !env.HasNativeSamplers) = true) :
    (ctor BindFlags env source desc).staticSamplerSlots_ =
      desc.staticSamplers.map (fun d => toUInt32 d.slot) ∧
    (ctor BindFlags env source desc).staticSamplersGL2X_ =
      List.zipWith (fun k d => (GL2XSampler.make (source.newGL2XSampler k)).SetDesc d.sampler)
        (List.range' 0 desc.staticSamplers.length) desc.staticSamplers ∧
    (ctor BindFlags env source desc).staticSamplers_ = [] := by
  unfold ctor
  simp only []
  obtain ⟨h1, h2, h3⟩ := BuildStaticSamplers_legacy source env hpath desc.staticSamplers
    (BuildDynamicResourceBindings BindFlags env
      { heapBindings_ := desc.heapBindings, uniforms_ := desc.uniforms,
        hasNamedBindings_ := HasAnyNamedResourceBindings desc, bindings_ := [],
        resourceNames_ := [], staticSamplerSlots_ := [], staticSamplers_ := [],
        staticSamplersGL2X_ := [] } desc.bindings)
  obtain ⟨g1, g2, g3⟩ := BuildDynamicResourceBindings_samplers BindFlags env desc.bindings
    { heapBindings_ := desc.heapBindings, uniforms_ := desc.uniforms,
      hasNamedBindings_ := HasAnyNamedResourceBindings desc, bindings_ := [],
      resourceNames_ := [], staticSamplerSlots_ := [], staticSamplers_ := [],
      staticSamplersGL2X_ := [] }
  rw [h1, h2, h3, g1, g2, g3]
  simp

/-- The static-sampler members of a layout constructed on the native path. -/
theorem ctor_samplers_native (BindFlags : BindFlagsValues) (env : GLEnvironment)
    (source : SamplerSource) (desc : PipelineLayoutDescriptor)
    (hpath : (env.LLGL_GL_ENABLE_OPENGL2X && !env.HasNativeSamplers) = false) :
    (ctor BindFlags env source desc).staticSamplerSlots_ =
      desc.staticSamplers.map (fun d => toUInt32 d.slot) ∧
    (ctor BindFlags env source desc).staticSamplers_ =
      List.zipWith (fun k d => (GLSampler.make (source.glGenSamplers k)).SetDesc d.sampler)
        (List.range' 0 desc.staticSamplers.length) desc.staticSamplers ∧
    (ctor BindFlags env source desc).staticSamplersGL2X_ = [] := by
  unfold ctor
  simp only []
  obtain ⟨h1, h2, h3⟩ := BuildStaticSamplers_native source env hpath desc.staticSamplers
    (BuildDynamicResourceBindings BindFlags env
      { heapBindings_ := desc.heapBindings, uniforms_ := desc.uniforms,
        hasNamedBindings_ := HasAnyNamedResourceBindings desc, bindings_ := [],
        resourceNames_ := [], staticSamplerSlots_ := [], staticSamplers_ := [],
        staticSamplersGL2X_ := [] } desc.bindings)
  obtain ⟨g1, g2, g3⟩ := BuildDynamicResourceBindings_samplers BindFlags env desc.bindings
    { heapBindings_ := desc.heapBindings, uniforms_ := desc.uniforms,
      hasNamedBindings_ := HasAnyNamedResourceBindings desc, bindings_ := [],
      resourceNames_ := [], staticSamplerSlots_ := [], staticSamplers_ := [],
      staticSamplersGL2X_ := [] }
  rw [h1, h2, h3, g1, g2, g3]
  simp

/-- Slots in the 32-bit range are stored unchanged. -/
theorem map_toUInt32_slot (staticSamplers : List StaticSamplerDescriptor)
    (hslot : ∀ s ∈ staticSamplers, s.slot < 2 ^ 32) :
    staticSamplers.map (fun d => toUInt32 d.slot) =
      staticSamplers.map StaticSamplerDescriptor.slot :=
  List.map_congr_left (fun s hs => toUInt32_of_lt s.slot (hslot s hs))

/-- One object per descriptor: the list of objects made for a descriptor list is as long as
the descriptor list. -/
theorem length_zipWith_range {β : Type} (staticSamplers : List StaticSamplerDescriptor)
    (obj : Nat → StaticSamplerDescriptor → β) :
    (List.zipWith obj (List.range' 0 staticSamplers.length) staticSamplers).length =
      staticSamplers.length := by
  simp

/-- C16. After construction the slot list has one entry per static-sampler descriptor, in
descriptor order; the sampler array of the path taken has the length of the slot list and
the array of the other path is empty, so the two kinds of sampler objects are never both
present; `GetNumStaticSamplers` returns the number of descriptors.  Counts and slots are
32-bit values. -/
theorem ctor_static_samplers (BindFlags : BindFlagsValues) (env : GLEnvironment)
    (source : SamplerSource) (desc : PipelineLayoutDescriptor)
    (hcount : desc.staticSamplers.length < 2 ^ 32)
    (hslot : ∀ s ∈ desc.staticSamplers, s.slot < 2 ^ 32) :
    (ctor BindFlags env source desc).staticSamplerSlots_ =
      desc.staticSamplers.map StaticSamplerDescriptor.slot ∧
    ((env.LLGL_GL_ENABLE_OPENGL2X && !env.HasNativeSamplers) = true →
      (ctor BindFlags env source desc).staticSamplersGL2X_.length =
        (ctor BindFlags env source desc).staticSamplerSlots_.length ∧
      (ctor BindFlags env source desc).staticSamplers_ = []) ∧
    ((env.LLGL_GL_ENABLE_OPENGL2X && !env.HasNativeSamplers) = false →
      (ctor BindFlags env source desc).staticSamplers_.length =
        (ctor BindFlags env source desc).staticSamplerSlots_.length ∧
      (ctor BindFlags env source desc).staticSamplersGL2X_ = []) ∧
    ((ctor BindFlags env source desc).staticSamplers_ = [] ∨
      (ctor BindFlags env source desc).staticSamplersGL2X_ = []) ∧
    GetNumStaticSamplers env (ctor BindFlags env source desc) = desc.staticSamplers.length := by
  cases hpath : (env.LLGL_GL_ENABLE_OPENGL2X && !env.HasNativeSamplers) with
  | true =>
    obtain ⟨h1, h2, h3⟩ := ctor_samplers_legacy BindFlags env source desc hpath
    have hX : env.LLGL_GL_ENABLE_OPENGL2X = true := by
      cases hx : env.LLGL_GL_ENABLE_OPENGL2X with
      | true => rfl
      | false => rw [hx] at hpath; exact Bool.noConfusion hpath
    refine ⟨?_, ?_, ?_, Or.inl h3, ?_⟩
    · rw [h1, map_toUInt32_slot _ hslot]
    · intro _
      refine ⟨?_, h3⟩
      rw [h1, h2, List.length_map, length_zipWith_range]
    · intro h
      exact Bool.noConfusion h
    · unfold GetNumStaticSamplers
      rw [hX, if_pos rfl, h2, h3, length_zipWith_range, List.length_nil, Nat.zero_max]
      exact toUInt32_of_lt _ hcount
  | false =>
    obtain ⟨h1, h2, h3⟩ := ctor_samplers_native BindFlags env source desc hpath
    refine ⟨?_, ?_, ?_, Or.inr h3, ?_⟩
    · rw [h1, map_toUInt32_slot _ hslot]
    · intro h
      exact Bool.noConfusion h
    · intro _
      refine ⟨?_, h3⟩
      rw [h1, h2, List.length_map, length_zipWith_range]
    · unfold GetNumStaticSamplers
      rw [h2, h3, length_zipWith_range, List.length_nil, Nat.max_zero]
      cases env.LLGL_GL_ENABLE_OPENGL2X <;> exact toUInt32_of_lt _ hcount

/-- Two static samplers on the legacy path: slots 3 and 1, two emulated samplers, no native
sampler. -/
theorem ctor_static_samplers_witness :
    (twoSamplersDesc.staticSamplers.length < 2 ^ 32 ∧
      ∀ s ∈ twoSamplersDesc.staticSamplers, s.slot < 2 ^ 32) ∧
    (ctor sampleBindFlags legacyEnv sampleSource twoSamplersDesc).staticSamplerSlots_ = [3, 1] ∧
    (ctor sampleBindFlags legacyEnv sampleSource twoSamplersDesc).staticSamplersGL2X_.length =
      2 ∧
    (ctor sampleBindFlags legacyEnv sampleSource twoSamplersDesc).staticSamplers_ = [] ∧
    GetNumStaticSamplers legacyEnv (ctor sampleBindFlags legacyEnv sampleSource twoSamplersDesc) =
      2 :=
  ⟨⟨by decide, by decide⟩,
    (ctor_static_samplers sampleBindFlags legacyEnv sampleSource twoSamplersDesc (by decide)
      (by decide)).1,
    by decide,
    ((ctor_static_samplers sampleBindFlags legacyEnv sampleSource twoSamplersDesc (by decide)
      (by decide)).2.1 rfl).2,
    (ctor_static_samplers sampleBindFlags legacyEnv sampleSource twoSamplersDesc (by decide)
      (by decide)).2.2.2.2⟩

/-- Bound on the legacy path, a layout with static-sampler slots and no emulated sampler
object faults at the first array access. -/
theorem BindStaticSamplers_fault_legacy (env : GLEnvironment) (self : GLPipelineLayout)
    (stateMngr : GLStateManager) (hslots : self.staticSamplerSlots_ ≠ [])
    (hpath : (env.LLGL_GL_ENABLE_OPENGL2X && !env.HasNativeSamplers) = true)
    (hnone : self.staticSamplersGL2X_ = []) :
    BindStaticSamplers env self stateMngr = none := by
  have hE : self.staticSamplerSlots_.isEmpty = false := by
    cases h : self.staticSamplerSlots_ with
    | nil => exact absurd h hslots
    | cons a l => rfl
  have hpos : 0 < self.staticSamplerSlots_.length := List.length_pos.mpr hslots
  unfold BindStaticSamplers
  rw [hE, hpath]
  simp only [Bool.not_false, if_true]
  unfold forRange
  rw [forRange.loop, if_pos hpos]
  simp [hnone]

end GLPipelineLayout

/-! ## Theorems: cached vertex and instance IDs of a decorated shader -/

namespace DbgShader

/-- A recognised per-vertex spelling is not the empty string. -/
theorem isVertexIDSemantic_nonempty (name : String) (h : isVertexIDSemantic name = true) :
    name.isEmpty = false := by
  unfold isVertexIDSemantic at h
  simp only [Bool.or_eq_true, beq_iff_eq] at h
  rcases h with (h | h) | h <;> rw [h] <;> decide

/-- A recognised per-instance spelling is not the empty string. -/
theorem isInstanceIDSemantic_nonempty (name : String) (h : isInstanceIDSemantic name = true) :
    name.isEmpty = false := by
  unfold isInstanceIDSemantic at h
  simp only [Bool.or_eq_true, beq_iff_eq] at h
  rcases h with (h | h) | h <;> rw [h] <;> decide

/-- The scan keeps the wrapped instance. -/
theorem foldl_scanInput_instanceReflection (inputs : List String) :
    ∀ self : DbgShader,
      (inputs.foldl scanInput self).instanceReflection = self.instanceReflection := by
  induction inputs with
  | nil =>
    intro self
    rfl
  | cons name rest ih =>
    intro self
    rw [List.foldl_cons, ih]
    unfold scanInput
    dsimp only
    split <;> split <;> rfl

/-- The vertex name after the scan: a cached name is kept, otherwise the first recognised
spelling among the inputs is cached. -/
theorem foldl_scanInput_vertexID (inputs : List String) :
    ∀ self : DbgShader,
      (inputs.foldl scanInput self).vertexID_ =
        if self.vertexID_.isEmpty then
          (inputs.find? isVertexIDSemantic).getD self.vertexID_
        else self.vertexID_ := by
  induction inputs with
  | nil =>
    intro self
    simp
  | cons name rest ih =>
    intro self
    rw [List.foldl_cons, ih]
    have hstep : (scanInput self name).vertexID_ =
        if self.vertexID_.isEmpty && isVertexIDSemantic name then name else self.vertexID_ := by
      unfold scanInput
      dsimp only
      split <;> split <;> rfl
    rw [hstep]
    cases hE : self.vertexID_.isEmpty with
    | false => simp [hE]
    | true =>
      cases hV : isVertexIDSemantic name with
      | false => simp [hE, hV, List.find?_cons]
      | true => simp [hV, List.find?_cons, isVertexIDSemantic_nonempty name hV]

/-- The instance name after the scan: a cached name is kept, otherwise the first recognised
spelling among the inputs is cached. -/
theorem foldl_scanInput_instanceID (inputs : List String) :
    ∀ self : DbgShader,
      (inputs.foldl scanInput self).instanceID_ =
        if self.instanceID_.isEmpty then
          (inputs.find? isInstanceIDSemantic).getD self.instanceID_
        else self.instanceID_ := by
  induction inputs with
  | nil =>
    intro self
    simp
  | cons name rest ih =>
    intro self
    rw [List.foldl_cons, ih]
    have hstep : (scanInput self name).instanceID_ =
        if self.instanceID_.isEmpty && isInstanceIDSemantic name then name
        else self.instanceID_ := by
      unfold scanInput
      dsimp only
      split <;> split <;> rfl
    rw [hstep]
    cases hE : self.instanceID_.isEmpty with
    | false => simp [hE]
    | true =>
      cases hV : isInstanceIDSemantic name with
      | false => simp [hE, hV, List.find?_cons]
      | true => simp [hV, List.find?_cons, isInstanceIDSemantic_nonempty name hV]

/-- The cached vertex name of a freshly constructed decorated shader. -/
theorem ctor_vertexID (reflection : ShaderReflection) :
    (ctor (some reflection)).vertexID_ =
      (reflection.inputs.find? isVertexIDSemantic).getD "" := by
  unfold ctor QueryInstanceAndVertexIDs
  dsimp only
  rw [foldl_scanInput_vertexID]
  rfl

/-- The cached instance name of a freshly constructed decorated shader. -/
theorem ctor_instanceID (reflection : ShaderReflection) :
    (ctor (some reflection)).instanceID_ =
      (reflection.inputs.find? isInstanceIDSemantic).getD "" := by
  unfold ctor QueryInstanceAndVertexIDs
  dsimp only
  rw [foldl_scanInput_instanceID]
  rfl

/-- Querying again leaves both cached names as they are. -/
theorem requery_ids (reflection : ShaderReflection) :
    (QueryInstanceAndVertexIDs (ctor (some reflection))).vertexID_ =
      (ctor (some reflection)).vertexID_ ∧
    (QueryInstanceAndVertexIDs (ctor (some reflection))).instanceID_ =
      (ctor (some reflection)).instanceID_ := by
  have hrefl : (ctor (some reflection)).instanceReflection = some reflection := by
    unfold ctor QueryInstanceAndVertexIDs
    dsimp only
    rw [foldl_scanInput_instanceReflection]
  have hq : QueryInstanceAndVertexIDs (ctor (some reflection)) =
      reflection.inputs.foldl scanInput (ctor (some reflection)) := by
    rw [QueryInstanceAndVertexIDs, hrefl]
  rw [hq, foldl_scanInput_vertexID, foldl_scanInput_instanceID]
  constructor
  · cases hE : (ctor (some reflection)).vertexID_.isEmpty with
    | false => simp
    | true =>
      simp only [if_true]
      cases hf : reflection.inputs.find? isVertexIDSemantic with
      | none => rfl
      | some m =>
        have hm := isVertexIDSemantic_nonempty m (List.find?_some hf)
        rw [ctor_vertexID, hf] at hE
        simp only [Option.getD_some] at hE
        rw [hE] at hm
        exact Bool.noConfusion hm
  · cases hE : (ctor (some reflection)).instanceID_.isEmpty with
    | false => simp
    | true =>
      simp only [if_true]
      cases hf : reflection.inputs.find? isInstanceIDSemantic with
      | none => rfl
      | some m =>
        have hm := isInstanceIDSemantic_nonempty m (List.find?_some hf)
        rw [ctor_instanceID, hf] at hE
        simp only [Option.getD_some] at hE
        rw [hE] at hm
        exact Bool.noConfusion hm

/-- C19. For a decorated shader built over a reflection: if some input is a vertex-ID
spelling, `GetVertexID` returns such an input, and if none is, it returns null; the same
for `GetInstanceID` and the instance-ID spellings; a further query of the names changes
neither result; a shader without reflection reports both names absent. -/
theorem cached_ids_spec (reflection : ShaderReflection) :
    ((∃ n ∈ reflection.inputs, isVertexIDSemantic n = true) →
      ∃ n ∈ reflection.inputs, isVertexIDSemantic n = true ∧
        GetVertexID (ctor (some reflection)) = some n) ∧
    ((∀ n ∈ reflection.inputs, isVertexIDSemantic n = false) →
      GetVertexID (ctor (some reflection)) = none) ∧
    ((∃ n ∈ reflection.inputs, isInstanceIDSemantic n = true) →
      ∃ n ∈ reflection.inputs, isInstanceIDSemantic n = true ∧
        GetInstanceID (ctor (some reflection)) = some n) ∧
    ((∀ n ∈ reflection.inputs, isInstanceIDSemantic n = false) →
      GetInstanceID (ctor (some reflection)) = none) ∧
    GetVertexID (QueryInstanceAndVertexIDs (ctor (some reflection))) =
      GetVertexID (ctor (some reflection)) ∧
    GetInstanceID (QueryInstanceAndVertexIDs (ctor (some reflection))) =
      GetInstanceID (ctor (some reflection)) ∧
    GetVertexID (ctor none) = none ∧ GetInstanceID (ctor none) = none := by
  refine ⟨?_, ?_, ?_, ?_, ?_, ?_, by decide, by decide⟩
  · rintro ⟨n, hn, hv⟩
    cases hf : reflection.inputs.find? isVertexIDSemantic with
    | none =>
      have := (List.find?_eq_none.mp hf) n hn
      exact absurd hv this
    | some m =>
      refine ⟨m, List.mem_of_find?_eq_some hf, List.find?_some hf, ?_⟩
      unfold GetVertexID
      rw [ctor_vertexID, hf]
      simp only [Option.getD_some]
      rw [isVertexIDSemantic_nonempty m (List.find?_some hf)]
      rfl
  · intro hall
    have hf : reflection.inputs.find? isVertexIDSemantic = none := by
      rw [List.find?_eq_none]
      intro n hn
      rw [hall n hn]
      exact Bool.false_ne_true
    unfold GetVertexID
    rw [ctor_vertexID, hf]
    rfl
  · rintro ⟨n, hn, hv⟩
    cases hf : reflection.inputs.find? isInstanceIDSemantic with
    | none =>
      have := (List.find?_eq_none.mp hf) n hn
      exact absurd hv this
    | some m =>
      refine ⟨m, List.mem_of_find?_eq_some hf, List.find?_some hf, ?_⟩
      unfold GetInstanceID
      rw [ctor_instanceID, hf]
      simp only [Option.getD_some]
      rw [isInstanceIDSemantic_nonempty m (List.find?_some hf)]
      rfl
  · intro hall
    have hf : reflection.inputs.find? isInstanceIDSemantic = none := by
      rw [List.find?_eq_none]
      intro n hn
      rw [hall n hn]
      exact Bool.false_ne_true
    unfold GetInstanceID
    rw [ctor_instanceID, hf]
    rfl
  · unfold GetVertexID
    rw [(requery_ids reflection).1]
  · unfold GetInstanceID
    rw [(requery_ids reflection).2]

/-- A reflection with `gl_VertexID` only, and one with neither identifier. -/
theorem cached_ids_examples :
    GetVertexID (ctor (some vertexOnlyReflection)) = some "gl_VertexID" ∧
    GetInstanceID (ctor (some vertexOnlyReflection)) = none ∧
    GetVertexID (ctor (some plainReflection)) = none ∧
    GetInstanceID (ctor (some plainReflection)) = none := by
  decide

end DbgShader

end LLGL
